import Mathlib

/-!
Verification of the natural-language specification of the
`single-file-agents` repository (files `sfa_ollama_delegator_agent.py`,
`sfa_duckdb_gemini_v2.py`, `omni.py`) against a shallow embedding of the
relevant code in Lean 4.

The embedding models:
* a fragment of Python's `json` module (values, `json.loads` as a fuel-based
  recursive-descent parser over the fragment actually exercised: `null`,
  booleans, integers, strings with the basic escapes, arrays, objects);
* the three network-calling functions (`run_ollama_generate`,
  `get_ollama_chat_completion` in the delegator script, `get_qwen3_response`
  in `omni.py`) as functions from an explicit transport outcome to an
  `Except`-typed result, with Python exceptions raised by the `try` body and
  caught by the `except` chain modelled explicitly;
* the delegator's agent loop (`main`, lines 378-519) as a fuel-indexed
  recursion over an oracle of provider responses;
* the DuckDB/Gemini agent loop (`main`, lines 342-452);
* `omni.py`'s `main` command dispatch and transaction logging.

Network and subprocess effects are parameterised by oracle functions;
everything else is translated from the source.
-/

namespace SFA

/-! ## A model of Python JSON values (the fragment the scripts exercise) -/

/-- JSON values as produced by Python's `json.loads`.  Numbers are modelled
as integers: every concrete document appearing in the scripts' data flow
carries only integral numbers (`context_window` etc.). -/
inductive JVal where
  | jnull
  | jbool (b : Bool)
  | jnum (n : Int)
  | jstr (s : String)
  | jarr (elems : List JVal)
  | jobj (fields : List (String × JVal))
deriving Repr

/-- Python truthiness (`if x:` / `if not x:`) on JSON-decoded values:
`None`, `False`, `0`, `""`, `[]` and `{ }` are falsy. -/
def pyTruthy : JVal → Bool
  | JVal.jnull => false
  | JVal.jbool b => b
  | JVal.jnum n => n ≠ 0
  | JVal.jstr s => s ≠ ""
  | JVal.jarr [] => false
  | JVal.jarr (_ :: _) => true
  | JVal.jobj [] => false
  | JVal.jobj (_ :: _) => true

/-- Python truthiness of an optional string (`dict.get` result that is either
absent/`None` or a string). -/
def truthyOpt : Option String → Bool
  | none => false
  | some s => s ≠ ""

/-- Exceptions the modelled Python code can raise. -/
inductive PyExn where
  | jsonDecodeError (doc : String)
  | attributeError (msg : String)
  | nameError (missing : String)
  | runtimeError (msg : String)
deriving DecidableEq, Repr

/-! ### `json.loads` on the modelled fragment -/

def lbraceChar : Char := '\x7b'

def rbraceChar : Char := '\x7d'

/-- Skip JSON whitespace. -/
def skipWs : List Char → List Char
  | c :: cs =>
    if c = ' ' ∨ c = '\t' ∨ c = '\n' ∨ c = '\r' then skipWs cs else c :: cs
  | [] => []

/-- Parse the body of a JSON string after the opening quote; supports the
escapes `\"`, `\\`, `\/`, `\n`, `\t`, `\r` (the ones occurring in the
scripts' data). -/
def parseStringBody (acc : List Char) : List Char → Option (String × List Char)
  | [] => none
  | c :: cs =>
    if c = '"' then some (String.mk acc.reverse, cs)
    else if c = '\\' then
      match cs with
      | [] => none
      | e :: cs' =>
        if e = '"' ∨ e = '\\' ∨ e = '/' then parseStringBody (e :: acc) cs'
        else if e = 'n' then parseStringBody ('\n' :: acc) cs'
        else if e = 't' then parseStringBody ('\t' :: acc) cs'
        else if e = 'r' then parseStringBody ('\r' :: acc) cs'
        else none
    else parseStringBody (c :: acc) cs

/-- Digits of a nonnegative integer literal to its value. -/
def digitsToNat (ds : List Char) : Nat :=
  ds.foldl (fun a c => a * 10 + (c.toNat - 48)) 0

/-- Parse an integer JSON number (optional minus sign, one or more digits;
fractions and exponents are outside the modelled fragment and fail). -/
def parseNum : List Char → Option (JVal × List Char)
  | cs =>
    let (neg, cs') := match cs with
      | '-' :: rest => (true, rest)
      | rest => (false, rest)
    let ds := cs'.takeWhile Char.isDigit
    let rest := cs'.dropWhile Char.isDigit
    if ds = [] then none
    else match rest with
      | '.' :: _ => none
      | 'e' :: _ => none
      | 'E' :: _ => none
      | _ =>
        let n : Int := Int.ofNat (digitsToNat ds)
        some (JVal.jnum (if neg then -n else n), rest)

mutual

/-- Parse one JSON value (fuel-indexed recursive descent). -/
def parseVal : Nat → List Char → Option (JVal × List Char)
  | 0, _ => none
  | fuel + 1, cs =>
    match skipWs cs with
    | [] => none
    | c :: cs' =>
      if c = 'n' then
        match cs' with
        | 'u' :: 'l' :: 'l' :: rest => some (JVal.jnull, rest)
        | _ => none
      else if c = 't' then
        match cs' with
        | 'r' :: 'u' :: 'e' :: rest => some (JVal.jbool true, rest)
        | _ => none
      else if c = 'f' then
        match cs' with
        | 'a' :: 'l' :: 's' :: 'e' :: rest => some (JVal.jbool false, rest)
        | _ => none
      else if c = '"' then
        match parseStringBody [] cs' with
        | some (s, rest) => some (JVal.jstr s, rest)
        | none => none
      else if c = '-' ∨ c.isDigit then parseNum (c :: cs')
      else if c = '[' then
        match skipWs cs' with
        | ']' :: rest => some (JVal.jarr [], rest)
        | rest => match parseElems fuel [] rest with
          | some (es, rest') => some (JVal.jarr es, rest')
          | none => none
      else if c = lbraceChar then
        match skipWs cs' with
        | d :: rest =>
          if d = rbraceChar then some (JVal.jobj [], rest)
          else match parseFields fuel [] (d :: rest) with
            | some (fs, rest') => some (JVal.jobj fs, rest')
            | none => none
        | [] => none
      else none

/-- Parse the elements of a non-empty JSON array (after `[`). -/
def parseElems : Nat → List JVal → List Char → Option (List JVal × List Char)
  | 0, _, _ => none
  | fuel + 1, acc, cs =>
    match parseVal fuel cs with
    | none => none
    | some (v, rest) =>
      match skipWs rest with
      | ',' :: rest' => parseElems fuel (v :: acc) rest'
      | ']' :: rest' => some ((v :: acc).reverse, rest')
      | _ => none

/-- Parse the fields of a non-empty JSON object (after the opening brace). -/
def parseFields : Nat → List (String × JVal) → List Char →
    Option (List (String × JVal) × List Char)
  | 0, _, _ => none
  | fuel + 1, acc, cs =>
    match skipWs cs with
    | '"' :: rest =>
      match parseStringBody [] rest with
      | none => none
      | some (key, rest1) =>
        match skipWs rest1 with
        | ':' :: rest2 =>
          match parseVal fuel rest2 with
          | none => none
          | some (v, rest3) =>
            match skipWs rest3 with
            | ',' :: rest4 => parseFields fuel ((key, v) :: acc) rest4
            | d :: rest4 =>
              if d = rbraceChar then some (((key, v) :: acc).reverse, rest4)
              else none
            | [] => none
        | _ => none
    | _ => none

end

/-- Model of Python's `json.loads` on the fragment above: parse one value,
require only whitespace to remain, raise `json.JSONDecodeError` otherwise. -/
def jsonLoads (s : String) : Except PyExn JVal :=
  match parseVal (2 * s.length + 2) s.data with
  | some (v, rest) =>
    if skipWs rest = [] then Except.ok v else Except.error (PyExn.jsonDecodeError s)
  | none => Except.error (PyExn.jsonDecodeError s)

/-! ## Provider network calls (`sfa_ollama_delegator_agent.py`, `omni.py`)

Each `requests.post` call is modelled by an explicit transport outcome.
Response bodies are modelled by the fields the source reads, typed as the
Ollama API delivers them (a JSON object; `response`/`error`/`message`/
`content`/`tool_calls` keys); a body that is not valid JSON is the
`malformed` case. -/

/-- A tool call as delivered in a chat message's `tool_calls` array:
`id` plus `function.name` / `function.arguments`, where `arguments` may be a
JSON object or a JSON-encoded string (spec section 6). -/
inductive RawArgs where
  | argObj (fields : List (String × JVal))
  | argStr (s : String)
deriving Repr

structure RawToolCall where
  id : String
  name : String
  arguments : RawArgs
deriving Repr

/-- The dictionary `get_ollama_chat_completion` hands back to the loop,
viewed through the keys the loop reads: `error`, `content`, `tool_calls`
(an error dictionary has only `error`; a message dictionary has the other
two). -/
structure PResp where
  errorField : Option String
  content : Option String
  toolCalls : List RawToolCall
deriving Repr

/-- An error dictionary as returned on the chat call's failure paths. -/
def errorResp (msg : String) : PResp :=
  { errorField := some msg, content := none, toolCalls := [] }

/-- Exceptions raised inside the network `try` bodies: the
`requests.exceptions` hierarchy plus JSON decoding of the body.  `Timeout`,
`ConnectionError` and `HTTPError` are subclasses of `RequestException`;
the except chains in the source list the subclasses first, so modelling
them as distinct constructors matched in source order is faithful. -/
inductive ReqExn where
  | timeout
  | connectionError
  | httpError (status : Nat)
  | requestException (msg : String)
  | jsonDecode (raw : String)
deriving DecidableEq, Repr

/-- Body of a `/api/generate`-style response: the `response` and `error`
fields (when the body is a JSON object) or a malformed body. -/
inductive GenBody where
  | malformed (rawText : String)
  | object (responseField : Option String) (errorField : Option String) (rawText : String)
deriving DecidableEq, Repr

/-- Transport outcome of one `requests.post` call. -/
inductive PostOutcome where
  | timeout
  | connectionError
  | otherRequestError (msg : String)
  | response (status : Nat) (body : GenBody)
deriving DecidableEq, Repr

/-- The `try` body of `run_ollama_generate` (lines 85-95): post the request,
`raise_for_status`, decode JSON, read `response` with default `""`. -/
def runOllamaGenerateTry (net : PostOutcome) : Except ReqExn String :=
  match net with
  | PostOutcome.timeout => Except.error ReqExn.timeout
  | PostOutcome.connectionError => Except.error ReqExn.connectionError
  | PostOutcome.otherRequestError m => Except.error (ReqExn.requestException m)
  | PostOutcome.response status body =>
    if 400 ≤ status then Except.error (ReqExn.httpError status)
    else
      match body with
      | GenBody.malformed raw => Except.error (ReqExn.jsonDecode raw)
      | GenBody.object responseField _ _ => Except.ok (responseField.getD "")

/-- Detail string the `HTTPError` handler extracts from the error response:
`e.response.json().get("error", e.response.text)`, falling back to the raw
text when the body does not decode (lines 107-111). -/
def httpErrorDetail : GenBody → String
  | GenBody.malformed raw => raw
  | GenBody.object _ errorField raw => errorField.getD raw

/-- `run_ollama_generate` (lines 49-124): result of the `try` body run
through the `except` chain.  Every handler returns an error string; the
function never re-raises.  (The decode-failure case is routed to the
dedicated `json.JSONDecodeError` handler as the source intends; with
requests >= 2.27 the earlier `RequestException` handler would catch the
library's subclass first — either way a string is returned.) -/
def runOllamaGenerate (baseUrl : String) (net : PostOutcome) : Except PyExn String :=
  if baseUrl = "" then Except.ok ("Error: OLLAMA_BASE_URL is not configured.")
  else
    let apiUrl := baseUrl ++ "/api/generate"
    match runOllamaGenerateTry net with
    | Except.ok s => Except.ok s
    | Except.error ReqExn.timeout =>
      Except.ok ("Error: Timeout after 120s connecting to Ollama API at " ++ apiUrl ++ ".")
    | Except.error ReqExn.connectionError =>
      Except.ok ("Error: Connection refused by Ollama API at " ++ apiUrl ++
        ". Is Ollama running and accessible?")
    | Except.error (ReqExn.httpError status) =>
      let detail := match net with
        | PostOutcome.response _ body => httpErrorDetail body
        | _ => ""
      Except.ok ("Error: Ollama API request failed with status " ++ toString status ++
        ". Detail: " ++ detail)
    | Except.error (ReqExn.requestException m) =>
      Except.ok ("Error: An unexpected error occurred with the Ollama API request: " ++ m)
    | Except.error (ReqExn.jsonDecode _) =>
      Except.ok ("Error: Could not decode JSON response from Ollama API, even though request seemed successful.")

/-- Body of a `/api/chat` response, through the keys the source reads:
presence of `error` and `message`, and the top-level `content`/`tool_calls`
(read only on the fall-through path that returns the whole body). -/
inductive ChatBody where
  | malformed (rawText : String)
  | object (errorField : Option String) (messageField : Option PResp)
      (contentField : Option String) (toolCallsField : List RawToolCall)
      (rawText : String)
deriving Repr

inductive ChatNet where
  | timeout
  | connectionError
  | otherRequestError (msg : String)
  | response (status : Nat) (body : ChatBody)
deriving Repr

/-- Detail string for a `/api/chat` error status (lines 189-192):
`response.json().get("error", response.text)` with raw-text fallback. -/
def chatErrorDetail : ChatBody → String
  | ChatBody.malformed raw => raw
  | ChatBody.object errorField _ _ _ raw => errorField.getD raw

/-- `get_ollama_chat_completion` (lines 127-228).  Every failure path
returns a dictionary with an `error` key; a response whose body carries a
`message` returns that message; a 200 body with an `error` key returns it;
otherwise the whole body is returned (modelled through the keys the loop
reads).  The function never raises: the `try` body's exceptions are all
caught (timeout / connection-refused / other request errors / JSON decode),
and an error status is handled by an explicit check rather than
`raise_for_status`. -/
def getOllamaChatCompletion (baseUrl : String) (net : ChatNet) : Except PyExn PResp :=
  if baseUrl = "" then Except.ok (errorResp ("OLLAMA_BASE_URL is not configured."))
  else
    let apiUrl := baseUrl ++ "/api/chat"
    match net with
    | ChatNet.timeout =>
      Except.ok (errorResp ("Error: Timeout after 180s connecting to Ollama /api/chat at " ++ apiUrl ++ "."))
    | ChatNet.connectionError =>
      Except.ok (errorResp ("Error: Connection refused by Ollama /api/chat at " ++ apiUrl ++
        ". Is Ollama running and accessible?"))
    | ChatNet.otherRequestError m =>
      Except.ok (errorResp ("Error: An unexpected error occurred with the Ollama /api/chat request: " ++ m))
    | ChatNet.response status body =>
      if 400 ≤ status then
        Except.ok (errorResp ("Error: Ollama /api/chat request failed with status " ++
          toString status ++ ". Detail: " ++ chatErrorDetail body))
      else
        match body with
        | ChatBody.malformed _ =>
          Except.ok (errorResp ("Error: Could not decode JSON response from Ollama /api/chat."))
        | ChatBody.object errorField messageField contentField toolCallsField _ =>
          match messageField with
          | some m => Except.ok m
          | none =>
            match errorField with
            | some e => Except.ok (errorResp e)
            | none =>
              Except.ok { errorField := none, content := contentField, toolCalls := toolCallsField }

/-- `get_qwen3_response` in `omni.py` (lines 415-439).  Status 200 with a
JSON body reads `response` with the format-error string as default; any
other status or transport/decode failure resolves to one of the module's
error strings.  Never raises. -/
def getQwen3Response (net : PostOutcome) : Except PyExn String :=
  match net with
  | PostOutcome.response status body =>
    if status = 200 then
      match body with
      | GenBody.malformed _ =>
        Except.ok ("Error: Unexpected response format from Ollama.")
      | GenBody.object responseField _ _ =>
        Except.ok (responseField.getD ("Error: Unexpected response format from Ollama."))
    else
      Except.ok ("Error: Ollama request failed with status code " ++ toString status ++ ".")
  | PostOutcome.connectionError =>
    Except.ok ("Error: Could not connect to Ollama. Ensure Ollama is running.")
  | PostOutcome.timeout =>
    Except.ok ("Error: Ollama request timed out.")
  | PostOutcome.otherRequestError m =>
    Except.ok ("Error: An unexpected error occurred with Ollama request: " ++ m)

/-- A `/api/generate` transport outcome that is one of the failure kinds the
spec enumerates: timeout, connection-refused, another transport error, an
HTTP error status, or a body that is not valid JSON. -/
def genFailure : PostOutcome → Bool
  | PostOutcome.timeout => true
  | PostOutcome.connectionError => true
  | PostOutcome.otherRequestError _ => true
  | PostOutcome.response status body =>
    decide (400 ≤ status) ||
      (match body with
       | GenBody.malformed _ => true
       | GenBody.object _ _ _ => false)

/-- Failure kinds for the `/api/chat` call. -/
def chatFailure : ChatNet → Bool
  | ChatNet.timeout => true
  | ChatNet.connectionError => true
  | ChatNet.otherRequestError _ => true
  | ChatNet.response status body =>
    decide (400 ≤ status) ||
      (match body with
       | ChatBody.malformed _ => true
       | ChatBody.object _ _ _ _ _ => false)

/-- Failure kinds for `omni.py`'s qwen3 call (any non-200 status counts). -/
def qwenFailure : PostOutcome → Bool
  | PostOutcome.timeout => true
  | PostOutcome.connectionError => true
  | PostOutcome.otherRequestError _ => true
  | PostOutcome.response status body =>
    decide (status ≠ 200) ||
      (match body with
       | GenBody.malformed _ => true
       | GenBody.object _ _ _ => false)

/-! ## The delegator's agent loop (`sfa_ollama_delegator_agent.py`, `main`)

The loop is modelled for the `ollama` provider branch: the provider call
returns a dictionary (`PResp`), normalisation adapts it to content blocks
(lines 412-435), dispatch fulfils tool calls (lines 462-508).  The
`anthropic` branch differs only in how the assistant blocks are obtained.
The provider and the `run_ollama_generate` tool body perform network I/O
and are supplied as oracle functions; by `getOllamaChatCompletion` /
`runOllamaGenerate` above both always return normally, so plain functions
are a faithful interface (the `try` around the tool call at lines 484-493
therefore never fires). -/

inductive Role where
  | user
  | assistant
deriving DecidableEq, Repr

/-- Normalized content blocks (Anthropic's shapes: `text`, `tool_use` with a
decoded `input` object, and `tool_result` for the follow-up user turn). -/
inductive Block where
  | text (s : String)
  | toolUse (id : String) (name : String) (input : JVal)
  | toolResult (toolUseId : String) (content : String)
deriving Repr

structure Turn where
  role : Role
  content : List Block
deriving Repr

/-- A parsed `tool_use` block as the dispatch loop reads it
(`id` / `name` / `input`). -/
structure ToolUseData where
  id : String
  name : String
  input : JVal
deriving Repr

/-- Arguments with which the loop invokes `run_ollama_generate`
(lines 486-491). -/
structure GenArgs where
  modelName : JVal
  prompt : JVal
  systemPrompt : Option JVal
  contextWindow : Option JVal

/-- `tool_calls[k].function.arguments` made into the `input` dict
(lines 422-430): a dict is `json.dumps`-ed and immediately `json.loads`-ed
back (the round trip is the identity), a string is `json.loads`-ed and the
decode error, if any, propagates. -/
def normArg : RawArgs → Except PyExn JVal
  | RawArgs.argObj fields => Except.ok (JVal.jobj fields)
  | RawArgs.argStr s => jsonLoads s

/-- Lines 420-431: one `tool_use` block per tool call in original order;
the first decode failure propagates (the `for` loop raises there). -/
def normToolCalls : List RawToolCall → Except PyExn (List Block)
  | [] => Except.ok []
  | tc :: rest =>
    match normArg tc.arguments with
    | Except.error e => Except.error e
    | Except.ok v =>
      match normToolCalls rest with
      | Except.error e => Except.error e
      | Except.ok bs => Except.ok (Block.toolUse tc.id tc.name v :: bs)

/-- Lines 416-435: adapt the Ollama chat message to Anthropic-style blocks —
a `text` block when `content` is truthy, then one `tool_use` block per tool
call in original order. -/
def normalizeOllama (r : PResp) : Except PyExn (List Block) :=
  match normToolCalls r.toolCalls with
  | Except.error e => Except.error e
  | Except.ok tcBlocks =>
    Except.ok ((if truthyOpt r.content then [Block.text (r.content.getD "")] else []) ++ tcBlocks)

/-- Python's `str.strip()` (on the whitespace the scripts encounter),
computed on the character list so that the kernel can evaluate it. -/
def pyStrip (s : String) : String :=
  String.mk (((s.data.dropWhile Char.isWhitespace).reverse.dropWhile Char.isWhitespace).reverse)

/-- Lines 445-450: a turn "has a text response" when some `text` block is
non-empty after stripping whitespace (`text_content.strip()`). -/
def hasTextResponse (bs : List Block) : Bool :=
  bs.any (fun b => match b with
    | Block.text s => pyStrip s ≠ ""
    | _ => false)

/-- Lines 451-455: collect the `tool_use` blocks, preserving order. -/
def toolCallsOf (bs : List Block) : List ToolUseData :=
  bs.filterMap (fun b => match b with
    | Block.toolUse id name input => some (ToolUseData.mk id name input)
    | _ => none)

/-- One tool-call fulfilment (lines 464-505): `run_ollama_generate` checks
the truthiness of `model_name` and `prompt` and invokes the tool; any other
name yields the unknown-tool error string.  `tool_input.get` on a non-dict
input raises `AttributeError` (uncaught in the source). -/
def executeToolCall (gen : GenArgs → String) (c : ToolUseData) : Except PyExn Block :=
  if c.name = "run_ollama_generate" then
    match c.input with
    | JVal.jobj fields =>
      let mArg := fields.lookup ("model_name")
      let pArg := fields.lookup ("prompt")
      match mArg, pArg with
      | some mv, some pv =>
        if !pyTruthy mv || !pyTruthy pv then
          Except.ok (Block.toolResult c.id
            ("Error: 'model_name' and 'prompt' are required for run_ollama_generate."))
        else
          Except.ok (Block.toolResult c.id
            (gen (GenArgs.mk mv pv (fields.lookup ("system_prompt"))
              (fields.lookup ("context_window")))))
      | _, _ =>
        Except.ok (Block.toolResult c.id
          ("Error: 'model_name' and 'prompt' are required for run_ollama_generate."))
    | _ => Except.error (PyExn.attributeError ("get"))
  else
    Except.ok (Block.toolResult c.id
      ("Error: Unknown tool '" ++ c.name ++ "' called by LLM."))

/-- Observable events of a run: provider calls and completed tool
executions. -/
inductive Event where
  | callLLM (iteration : Nat)
  | execTool (name : String)
deriving DecidableEq, Repr

/-- Fulfil the tool calls of one turn in their request order, collecting the
result blocks (lines 463-505); an exception aborts the remaining calls. -/
def execCalls (gen : GenArgs → String) :
    List ToolUseData → List Event → Except PyExn (List Block) × List Event
  | [], tr => (Except.ok [], tr)
  | c :: cs, tr =>
    match executeToolCall gen c with
    | Except.error e => (Except.error e, tr)
    | Except.ok r =>
      match execCalls gen cs (tr ++ [Event.execTool c.name]) with
      | (Except.ok rs, tr') => (Except.ok (r :: rs), tr')
      | (Except.error e, tr') => (Except.error e, tr')

/-- How a run ended: the loop's `break`/exhaustion points (lines 438-519),
plus `crashed` for an uncaught Python exception. -/
inductive ExitKind where
  | finalText
  | providerError
  | noOp
  | budget
  | crashed (e : PyExn)
deriving DecidableEq, Repr

/-- State when `main`'s loop is left: the conversation, `loop_count`,
`final_answer_delivered`, how the loop ended, and the event trace. -/
structure FinalState where
  messages : List Turn
  loopCount : Nat
  finalAnswer : Bool
  exit : ExitKind
  trace : List Event
deriving Repr

/-- The agent loop (lines 378-512) for the ollama provider.  `oracle i` is
the dictionary `get_ollama_chat_completion` returns on iteration `i`;
`gen` is `run_ollama_generate`'s behaviour.  `fuel` is the number of
iterations `for i in range(max_loops)` still permits. -/
def agentLoop (oracle : Nat → PResp) (gen : GenArgs → String) :
    Nat → Nat → List Turn → List Event → FinalState
  | 0, i, msgs, tr => FinalState.mk msgs i false ExitKind.budget tr
  | fuel + 1, i, msgs, tr =>
    let resp := oracle i
    let tr1 := tr ++ [Event.callLLM i]
    if truthyOpt resp.errorField then
      FinalState.mk msgs (i + 1) false ExitKind.providerError tr1
    else
      match normalizeOllama resp with
      | Except.error e => FinalState.mk msgs (i + 1) false (ExitKind.crashed e) tr1
      | Except.ok blocks =>
        let msgs1 := msgs ++ [Turn.mk Role.assistant blocks]
        let calls := toolCallsOf blocks
        if calls.isEmpty && hasTextResponse blocks then
          FinalState.mk msgs1 (i + 1) true ExitKind.finalText tr1
        else if !calls.isEmpty then
          match execCalls gen calls tr1 with
          | (Except.error e, tr2) => FinalState.mk msgs1 (i + 1) false (ExitKind.crashed e) tr2
          | (Except.ok results, tr2) =>
            let msgs2 := if results.isEmpty then msgs1 else msgs1 ++ [Turn.mk Role.user results]
            agentLoop oracle gen fuel (i + 1) msgs2 tr2
        else FinalState.mk msgs1 (i + 1) false ExitKind.noOp tr1

/-- A whole run: initial history `[{"role": "user", "content": prompt}]`
(line 341), `max_loops` iterations available (line 378). -/
def runAgent (oracle : Nat → PResp) (gen : GenArgs → String) (maxLoops : Nat)
    (prompt : String) : FinalState :=
  agentLoop oracle gen maxLoops 0 [Turn.mk Role.user [Block.text prompt]] []

/-- The three closing console messages (lines 514-519). -/
inductive Report where
  | success
  | budgetWarning
  | concludedError
deriving DecidableEq, Repr

/-- Which closing message a (non-crashed) run prints (lines 514-519). -/
def finalReport (st : FinalState) (maxLoops : Nat) : Report :=
  if st.finalAnswer then Report.success
  else if st.loopCount = maxLoops then Report.budgetWarning
  else Report.concludedError

/-! ### The request/result matching invariant (claim C1) -/

/-- The tool-call requests of a turn: its `tool_use` blocks when it is an
assistant turn. -/
def requestsOf (t : Turn) : List ToolUseData :=
  match t.role with
  | Role.assistant => toolCallsOf t.content
  | Role.user => []

def isToolResultBlock : Block → Bool
  | Block.toolResult _ _ => true
  | _ => false

/-- A tool-result turn: the user-role message carrying only `tool_result`
blocks (line 508). -/
def isToolResultTurn (t : Turn) : Bool :=
  decide (t.role = Role.user) && !t.content.isEmpty && t.content.all isToolResultBlock

/-- The `tool_use_id`s of the `tool_result` blocks in a block list, in
order. -/
def resultIdsOfBlocks (bs : List Block) : List String :=
  bs.filterMap (fun b => match b with
    | Block.toolResult i _ => some i
    | _ => none)

/-- The `tool_use_id`s of a turn's `tool_result` blocks, in order. -/
def resultIds (t : Turn) : List String :=
  resultIdsOfBlocks t.content

/-- Adjacent-pair condition: a turn with tool-call requests is followed by
exactly the matching tool-result turn (same ids, same order); a turn
without requests is not followed by a tool-result turn. -/
def chk (prev next : Turn) : Bool :=
  if (requestsOf prev).isEmpty then !isToolResultTurn next
  else isToolResultTurn next && (resultIds next == (requestsOf prev).map ToolUseData.id)

/-- Chain of `chk` along the history; the last turn must have no pending
requests. -/
def wfAux (prev : Turn) : List Turn → Bool
  | [] => (requestsOf prev).isEmpty
  | u :: rest => chk prev u && wfAux u rest

/-- The conversation invariant of spec sections 3 and 8: every assistant
turn's tool-call requests are answered in the immediately following
tool-result turn by the same ids in the same order, and no tool-result turn
answers ids that were not requested immediately before it. -/
def wfMessages : List Turn → Bool
  | [] => true
  | t :: rest => !isToolResultTurn t && wfAux t rest

/-! ## The DuckDB/Gemini agent loop (`sfa_duckdb_gemini_v2.py`, `main`)

`while True` with `compute_iterations` incremented at the top of each pass
and `raise Exception(...)` once it reaches `args.compute` (lines 345-357);
tool calls are dispatched by an `if`/`elif` chain on the function name with
`run_final_sql_query` returning from `main` (lines 386-444); exceptions
from the loop body are re-raised (lines 450-452).  The Gemini call and the
subprocess-backed tools are oracle functions.  The model content object
`response.candidates[0].content` is opaque and carried as a tag. -/

structure GFuncCall where
  name : String
  args : List (String × JVal)
deriving Repr

/-- One Gemini response: its function calls and (a tag for) the candidate
content object that gets appended to the history. -/
structure GResp where
  functionCalls : List GFuncCall
  contentTag : Nat
deriving Repr

inductive DuckToolResp where
  | resultResp (s : String)
  | errorResp (s : String)
deriving Repr

inductive DuckMsg where
  | userMsg (s : String)
  | modelMsg (tag : Nat)
  | toolMsg (name : String) (resp : DuckToolResp)
deriving Repr

structure DuckResult where
  outcome : Except PyExn Unit
  messages : List DuckMsg
  iterations : Nat
deriving Repr

def duckBudgetMsg (n maxLoops : Nat) : String :=
  "Maximum compute loops reached: " ++ toString n ++ "/" ++ toString maxLoops

/-- The per-response tool dispatch (lines 386-444).  `toolBehave` is the
behaviour of a tool body (`Except.error` for an exception it raises, e.g. a
keyword-argument mismatch); `exnText` stands for `str(e)` of the
`UnboundLocalError` hit when the name matches no branch and `result` is
printed unassigned.  Returns the grown history and whether
`run_final_sql_query` returned from `main`. -/
def processCalls (toolBehave : GFuncCall → Except String String) (exnText : String)
    (contentTag : Nat) : List GFuncCall → List DuckMsg → List DuckMsg × Bool
  | [], msgs => (msgs, false)
  | fc :: rest, msgs =>
    if fc.name = "list_tables" ∨ fc.name = "describe_table" ∨
        fc.name = "sample_table" ∨ fc.name = "run_test_sql_query" then
      match toolBehave fc with
      | Except.ok s =>
        processCalls toolBehave exnText contentTag rest
          (msgs ++ [DuckMsg.modelMsg contentTag, DuckMsg.toolMsg fc.name (DuckToolResp.resultResp s)])
      | Except.error m =>
        processCalls toolBehave exnText contentTag rest
          (msgs ++ [DuckMsg.modelMsg contentTag,
            DuckMsg.toolMsg fc.name (DuckToolResp.errorResp ("Error executing " ++ fc.name ++ ": " ++ m))])
    else if fc.name = "run_final_sql_query" then
      match toolBehave fc with
      | Except.ok _ => (msgs, true)
      | Except.error m =>
        processCalls toolBehave exnText contentTag rest
          (msgs ++ [DuckMsg.modelMsg contentTag,
            DuckMsg.toolMsg fc.name (DuckToolResp.errorResp ("Error executing " ++ fc.name ++ ": " ++ m))])
    else
      processCalls toolBehave exnText contentTag rest
        (msgs ++ [DuckMsg.modelMsg contentTag,
          DuckMsg.toolMsg fc.name (DuckToolResp.errorResp ("Error executing " ++ fc.name ++ ": " ++ exnText))])

/-- The `while True` loop.  `orc i` is the outcome of the Gemini call on
pass `i` (`Except.error` when `generate_content` raises, which the outer
handler re-raises).  `fuel` is a termination device: the caller passes
`maxLoops` and the budget check fires before fuel can run out (at fuel `0`,
`iters = maxLoops`, so the modelled pass performs exactly the Python
budget raise). -/
def duckdbLoop (orc : Nat → Except String GResp)
    (toolBehave : GFuncCall → Except String String) (exnText : String) (maxLoops : Nat) :
    Nat → Nat → List DuckMsg → DuckResult
  | 0, iters, msgs =>
    DuckResult.mk (Except.error (PyExn.runtimeError (duckBudgetMsg (iters + 1) maxLoops))) msgs (iters + 1)
  | fuel + 1, iters, msgs =>
    let iters' := iters + 1
    if maxLoops ≤ iters' then
      DuckResult.mk (Except.error (PyExn.runtimeError (duckBudgetMsg iters' maxLoops))) msgs iters'
    else
      match orc iters with
      | Except.error m => DuckResult.mk (Except.error (PyExn.runtimeError m)) msgs iters'
      | Except.ok resp =>
        if resp.functionCalls.isEmpty then
          duckdbLoop orc toolBehave exnText maxLoops fuel iters' (msgs ++ [DuckMsg.modelMsg resp.contentTag])
        else
          match processCalls toolBehave exnText resp.contentTag resp.functionCalls msgs with
          | (msgs2, true) => DuckResult.mk (Except.ok ()) msgs2 iters'
          | (msgs2, false) => duckdbLoop orc toolBehave exnText maxLoops fuel iters' msgs2

/-- A DuckDB-agent run: history starts with the completed prompt as the
user message (lines 338-340). -/
def duckdbRun (orc : Nat → Except String GResp)
    (toolBehave : GFuncCall → Except String String) (exnText : String) (maxLoops : Nat)
    (prompt : String) : DuckResult :=
  duckdbLoop orc toolBehave exnText maxLoops maxLoops 0 [DuckMsg.userMsg prompt]

/-! ## `omni.py`: command dispatch and the transaction log -/

/-- The functions `omni.py` defines at module level (its complete list of
`def` statements).  Notably, no `handle_show_design_workflow` is among
them, although `main` calls that name (line 622). -/
def omniDefinedFunctions : List String :=
  ["handle_add_capability", "handle_add_mcp_tool", "get_qwen3_response",
   "create_transaction_data", "log_transaction", "handle_show_transactions",
   "display_help", "main"]

/-- Whether a global name is bound when `main` runs; evaluating an unbound
name raises `NameError`. -/
def omniEnvHas (name : String) : Bool := omniDefinedFunctions.contains name

/-- A session capability entry as appended to `ADDED_CAPABILITIES`. -/
structure Capability where
  name : String
  ctype : String
  description : String
  plan : String
  config : Option JVal
deriving Repr

structure Transaction where
  timestamp : String
  userInput : String
  agentResponse : String
deriving Repr

structure OmniState where
  transactionsLog : List Transaction
  addedCapabilities : List Capability
deriving Repr

/-- The prompts `omni.py` sends to qwen3, abstracted to the data injected
into them (the literal prompt text is fixed by the source and carries no
further information). -/
inductive OmniPrompt where
  | addPlan (capabilityName description : String)
  | mcpPlan (toolName : String) (config : JVal) (description : String)
  | helpPrompt (capabilities : List Capability)

/-- The command `main` dispatches on, as produced by its `argparse`
configuration (lines 517-557): the five subcommands, an unrecognized
leading token, or no arguments at all. -/
inductive OmniCmd where
  | help
  | add (capabilityName description : String)
  | addMcpTool (toolName mcpConfigJson description : String)
  | showTransactions
  | showDesignWorkflow
  | unknownCmd (cmd : String)
  | noCommand
deriving DecidableEq, Repr

/-- Rendering of `str(e)` for a caught `json.JSONDecodeError` (the exact
Python message text is opaque to the model). -/
def strOfJsonError (doc : String) : String := "could not decode: " ++ doc

/-- `handle_add_capability` (lines 308-355): plan from qwen3; on an error
string, report failure; otherwise register the capability (if new) and
return the placeholder response. -/
def handleAddCapability (qwen : OmniPrompt → String) (st : OmniState)
    (capabilityName description : String) : String × OmniState :=
  let planText := qwen (OmniPrompt.addPlan capabilityName description)
  if planText.startsWith ("Error:") then
    ("Failed to get plan for capability '" ++ capabilityName ++ "'. Error: " ++ planText, st)
  else
    let st' :=
      if st.addedCapabilities.any (fun c => c.name = capabilityName) then st
      else { st with addedCapabilities := st.addedCapabilities ++
        [Capability.mk capabilityName ("general_capability") description planText none] }
    ("Placeholder for add capability '" ++ capabilityName ++
      "': qwen3 generated the following plan: " ++ planText, st')

/-- `handle_add_mcp_tool` (lines 357-413): decode the JSON config
(`json.loads` inside `try`/`except JSONDecodeError`), then plan via qwen3
and register on success. -/
def handleAddMcpTool (qwen : OmniPrompt → String) (st : OmniState)
    (toolName mcpConfigJson description : String) : String × OmniState :=
  match jsonLoads mcpConfigJson with
  | Except.error (PyExn.jsonDecodeError doc) =>
    ("Failed to add MCP tool '" ++ toolName ++ "': Invalid JSON in configuration. Error: " ++
      strOfJsonError doc, st)
  | Except.error _ =>
    ("Failed to add MCP tool '" ++ toolName ++ "': Invalid JSON in configuration. Error: " ++
      strOfJsonError mcpConfigJson, st)
  | Except.ok config =>
    let planText := qwen (OmniPrompt.mcpPlan toolName config description)
    if planText.startsWith ("Error:") then
      ("Failed to get plan for MCP tool '" ++ toolName ++ "'. Error: " ++ planText, st)
    else
      let st' :=
        if st.addedCapabilities.any (fun c => c.name = toolName) then st
        else { st with addedCapabilities := st.addedCapabilities ++
          [Capability.mk toolName ("mcp_tool") description planText (some config)] }
      ("Placeholder for MCP tool '" ++ toolName ++
        "': qwen3 generated the following plan/code: " ++ planText, st')

/-- `handle_show_transactions` (lines 454-465). -/
def handleShowTransactions (st : OmniState) : String :=
  if st.transactionsLog.isEmpty then "No transactions to display for this session."
  else "Displayed in-memory transaction log."

/-- The agent response of the help path (`main` lines 560-600: the qwen3
attempt for the log, with the error/success message pair). -/
def helpAgentResponse (qwen : OmniPrompt → String) (st : OmniState) : String :=
  let resp := qwen (OmniPrompt.helpPrompt st.addedCapabilities)
  if resp.startsWith ("Error:") then
    "Attempted to display help via qwen3 (with session-only capabilities list and disclaimers), but encountered an error: " ++ resp
  else
    "Displayed help message generated by qwen3 (with session-only capabilities list and disclaimers)."

/-- `main`'s command dispatch (lines 560-654): the agent response and the
post-dispatch state, or the exception the branch raises.  The
`show_design_workflow` branch evaluates the name
`handle_show_design_workflow`, which is unbound, raising `NameError`. -/
def omniDispatch (qwen : OmniPrompt → String) (cmd : OmniCmd) (st : OmniState) :
    Except PyExn (String × OmniState) :=
  match cmd with
  | OmniCmd.help => Except.ok (helpAgentResponse qwen st, st)
  | OmniCmd.noCommand => Except.ok (helpAgentResponse qwen st, st)
  | OmniCmd.add n d => Except.ok (handleAddCapability qwen st n d)
  | OmniCmd.addMcpTool n c d => Except.ok (handleAddMcpTool qwen st n c d)
  | OmniCmd.showTransactions => Except.ok (handleShowTransactions st, st)
  | OmniCmd.showDesignWorkflow =>
    if omniEnvHas ("handle_show_design_workflow") then
      Except.ok ("", st)
    else
      Except.error (PyExn.nameError ("handle_show_design_workflow"))
  | OmniCmd.unknownCmd s => Except.ok ("Reported unknown command: " ++ s, st)

/-- `main` of `omni.py` (lines 510-665): dispatch on the parsed command,
compute `agent_response` (with the not-set fallback of lines 660-662), then
append exactly one transaction via `create_transaction_data` /
`log_transaction`.  An uncaught exception is the `Except.error` result and
skips the logging. -/
def omniMain (qwen : OmniPrompt → String) (timestamp userInput : String)
    (cmd : OmniCmd) (st : OmniState) : Except PyExn OmniState :=
  match omniDispatch qwen cmd st with
  | Except.error e => Except.error e
  | Except.ok (ar, st') =>
    let ar2 := if ar = "" then "Error: Agent response not set for this interaction." else ar
    Except.ok { st' with transactionsLog :=
      st'.transactionsLog ++ [Transaction.mk timestamp userInput ar2] }

/-! # Theorems -/

/-- Helper: a two-piece concatenation headed by `"Error"` has `"Error"` as a
prefix. -/
theorem errPrefixTwo (t u : String) : ∃ r, ("Error" ++ t) ++ u = "Error" ++ r :=
  ⟨t ++ u, String.append_assoc _ _ _⟩

/-- Helper: a three-piece concatenation headed by `"Error"`. -/
theorem errPrefixThree (t u v : String) : ∃ r, (("Error" ++ t) ++ u) ++ v = "Error" ++ r :=
  ⟨(t ++ u) ++ v, by simp [String.append_assoc]⟩

/-- Helper: a four-piece concatenation headed by `"Error"`. -/
theorem errPrefixFour (t u v w : String) :
    ∃ r, ((("Error" ++ t) ++ u) ++ v) ++ w = "Error" ++ r :=
  ⟨((t ++ u) ++ v) ++ w, by simp [String.append_assoc]⟩

/-! ## C8: provider send operations never raise -/

/-- Claim C8: for every transport outcome, the provider send operations
(`run_ollama_generate`, `get_ollama_chat_completion`, and `omni.py`'s
`get_qwen3_response`) return normally — never raise — and every enumerated
transport or decode failure (timeout, connection refused, HTTP error
status, malformed JSON body) resolves to a typed error value: an
`Error`-prefixed string for the two string-returning calls, a dictionary
with an `error` key for the chat call. -/
theorem claim_C8_provider_send_total :
    (∀ (baseUrl : String) (net : PostOutcome), ∃ s : String,
        runOllamaGenerate baseUrl net = Except.ok s ∧
        (genFailure net = true → ∃ r, s = "Error" ++ r)) ∧
    (∀ (baseUrl : String) (net : ChatNet), ∃ p : PResp,
        getOllamaChatCompletion baseUrl net = Except.ok p ∧
        (chatFailure net = true → p.errorField.isSome = true)) ∧
    (∀ net : PostOutcome, ∃ s : String,
        getQwen3Response net = Except.ok s ∧
        (qwenFailure net = true → ∃ r, s = "Error" ++ r)) := by
  refine ⟨?_, ?_, ?_⟩
  · intro baseUrl net
    by_cases hb : baseUrl = ""
    · refine ⟨"Error: OLLAMA_BASE_URL is not configured.", by simp [runOllamaGenerate, hb], ?_⟩
      intro _
      exact ⟨": OLLAMA_BASE_URL is not configured.", rfl⟩
    · cases net with
      | timeout =>
        refine ⟨"Error: Timeout after 120s connecting to Ollama API at " ++
          (baseUrl ++ "/api/generate") ++ ".", ?_, ?_⟩
        · simp [runOllamaGenerate, runOllamaGenerateTry, hb]
        · intro _
          exact errPrefixThree (": Timeout after 120s connecting to Ollama API at ")
            (baseUrl ++ "/api/generate") (".")
      | connectionError =>
        refine ⟨"Error: Connection refused by Ollama API at " ++ (baseUrl ++ "/api/generate") ++
          ". Is Ollama running and accessible?", ?_, ?_⟩
        · simp [runOllamaGenerate, runOllamaGenerateTry, hb]
        · intro _
          exact errPrefixThree (": Connection refused by Ollama API at ")
            (baseUrl ++ "/api/generate") (". Is Ollama running and accessible?")
      | otherRequestError m =>
        refine ⟨"Error: An unexpected error occurred with the Ollama API request: " ++ m, ?_, ?_⟩
        · simp [runOllamaGenerate, runOllamaGenerateTry, hb]
        · intro _
          exact errPrefixTwo (": An unexpected error occurred with the Ollama API request: ") m
      | response status body =>
        by_cases h4 : 400 ≤ status
        · refine ⟨"Error: Ollama API request failed with status " ++ toString status ++
            ". Detail: " ++ httpErrorDetail body, ?_, ?_⟩
          · simp [runOllamaGenerate, runOllamaGenerateTry, hb, h4]
          · intro _
            exact errPrefixFour (": Ollama API request failed with status ")
              (toString status) (". Detail: ") (httpErrorDetail body)
        · cases body with
          | malformed raw =>
            refine ⟨"Error: Could not decode JSON response from Ollama API, even though request seemed successful.",
              ?_, ?_⟩
            · simp [runOllamaGenerate, runOllamaGenerateTry, hb, h4]
            · intro _
              exact ⟨": Could not decode JSON response from Ollama API, even though request seemed successful.", rfl⟩
          | object responseField errorField raw =>
            refine ⟨responseField.getD "", ?_, ?_⟩
            · simp [runOllamaGenerate, runOllamaGenerateTry, hb, h4]
            · intro hfail
              simp [genFailure, h4] at hfail
  · intro baseUrl net
    by_cases hb : baseUrl = ""
    · refine ⟨errorResp ("OLLAMA_BASE_URL is not configured."), ?_, fun _ => rfl⟩
      simp [getOllamaChatCompletion, hb]
    · cases net with
      | timeout =>
        refine ⟨errorResp ("Error: Timeout after 180s connecting to Ollama /api/chat at " ++
          (baseUrl ++ "/api/chat") ++ "."), ?_, fun _ => rfl⟩
        simp [getOllamaChatCompletion, hb]
      | connectionError =>
        refine ⟨errorResp ("Error: Connection refused by Ollama /api/chat at " ++
          (baseUrl ++ "/api/chat") ++ ". Is Ollama running and accessible?"), ?_, fun _ => rfl⟩
        simp [getOllamaChatCompletion, hb]
      | otherRequestError m =>
        refine ⟨errorResp ("Error: An unexpected error occurred with the Ollama /api/chat request: " ++ m),
          ?_, fun _ => rfl⟩
        simp [getOllamaChatCompletion, hb]
      | response status body =>
        by_cases h4 : 400 ≤ status
        · refine ⟨errorResp ("Error: Ollama /api/chat request failed with status " ++
            toString status ++ ". Detail: " ++ chatErrorDetail body), ?_, fun _ => rfl⟩
          simp [getOllamaChatCompletion, hb, h4]
        · cases body with
          | malformed raw =>
            refine ⟨errorResp ("Error: Could not decode JSON response from Ollama /api/chat."),
              ?_, fun _ => rfl⟩
            simp [getOllamaChatCompletion, hb, h4]
          | object errorField messageField contentField toolCallsField raw =>
            cases messageField with
            | some m =>
              refine ⟨m, ?_, ?_⟩
              · simp [getOllamaChatCompletion, hb, h4]
              · intro hfail
                simp [chatFailure, h4] at hfail
            | none =>
              cases errorField with
              | some e =>
                refine ⟨errorResp e, ?_, ?_⟩
                · simp [getOllamaChatCompletion, hb, h4]
                · intro hfail
                  simp [chatFailure, h4] at hfail
              | none =>
                refine ⟨PResp.mk none contentField toolCallsField, ?_, ?_⟩
                · simp [getOllamaChatCompletion, hb, h4]
                · intro hfail
                  simp [chatFailure, h4] at hfail
  · intro net
    cases net with
    | timeout =>
      exact ⟨"Error: Ollama request timed out.", rfl,
        fun _ => ⟨": Ollama request timed out.", rfl⟩⟩
    | connectionError =>
      exact ⟨"Error: Could not connect to Ollama. Ensure Ollama is running.", rfl,
        fun _ => ⟨": Could not connect to Ollama. Ensure Ollama is running.", rfl⟩⟩
    | otherRequestError m =>
      refine ⟨"Error: An unexpected error occurred with Ollama request: " ++ m, rfl, ?_⟩
      intro _
      exact errPrefixTwo (": An unexpected error occurred with Ollama request: ") m
    | response status body =>
      by_cases h2 : status = 200
      · cases body with
        | malformed raw =>
          refine ⟨"Error: Unexpected response format from Ollama.", ?_, ?_⟩
          · simp [getQwen3Response, h2]
          · intro _
            exact ⟨": Unexpected response format from Ollama.", rfl⟩
        | object responseField errorField raw =>
          refine ⟨responseField.getD ("Error: Unexpected response format from Ollama."), ?_, ?_⟩
          · simp [getQwen3Response, h2]
          · intro hfail
            simp [qwenFailure, h2] at hfail
      · refine ⟨"Error: Ollama request failed with status code " ++ toString status ++ ".", ?_, ?_⟩
        · simp [getQwen3Response, h2]
        · intro _
          exact errPrefixThree (": Ollama request failed with status code ") (toString status) (".")

/-- Witness for C8 at concrete failure inputs. -/
theorem claim_C8_provider_send_total_witness :
    genFailure PostOutcome.timeout = true ∧
    chatFailure ChatNet.connectionError = true ∧
    qwenFailure (PostOutcome.response 500 (GenBody.malformed ("oops"))) = true ∧
    (∃ s, runOllamaGenerate ("http://localhost:11434") PostOutcome.timeout = Except.ok s ∧
      ∃ r, s = "Error" ++ r) ∧
    (∃ p, getOllamaChatCompletion ("http://localhost:11434") ChatNet.connectionError = Except.ok p ∧
      p.errorField.isSome = true) ∧
    (∃ s, getQwen3Response (PostOutcome.response 500 (GenBody.malformed ("oops"))) = Except.ok s ∧
      ∃ r, s = "Error" ++ r) := by
  refine ⟨by decide, by decide, by decide, ?_, ?_, ?_⟩
  · obtain ⟨s, h1, h2⟩ := claim_C8_provider_send_total.1 ("http://localhost:11434") PostOutcome.timeout
    exact ⟨s, h1, h2 (by decide)⟩
  · obtain ⟨p, h1, h2⟩ := claim_C8_provider_send_total.2.1 ("http://localhost:11434") ChatNet.connectionError
    exact ⟨p, h1, h2 (by decide)⟩
  · obtain ⟨s, h1, h2⟩ := claim_C8_provider_send_total.2.2
      (PostOutcome.response 500 (GenBody.malformed ("oops")))
    exact ⟨s, h1, h2 (by decide)⟩

/-! ## C10: `show_design_workflow` dispatches to an undefined name -/

/-- Preservation of the transaction log by `handle_add_capability`. -/
theorem handleAddCapability_log (qwen : OmniPrompt → String) (st : OmniState)
    (n d : String) : (handleAddCapability qwen st n d).2.transactionsLog = st.transactionsLog := by
  by_cases hq : (qwen (OmniPrompt.addPlan n d)).startsWith ("Error:") = true
  · simp [handleAddCapability, hq]
  · by_cases hc : st.addedCapabilities.any (fun c => c.name = n) = true
    · simp [handleAddCapability, hq, hc]
    · simp [handleAddCapability, hq, hc]

/-- Preservation of the transaction log by `handle_add_mcp_tool`. -/
theorem handleAddMcpTool_log (qwen : OmniPrompt → String) (st : OmniState)
    (n c d : String) : (handleAddMcpTool qwen st n c d).2.transactionsLog = st.transactionsLog := by
  rcases hj : jsonLoads c with e | config
  · cases e <;> simp [handleAddMcpTool, hj]
  · by_cases hq : (qwen (OmniPrompt.mcpPlan n config d)).startsWith ("Error:") = true
    · simp [handleAddMcpTool, hj, hq]
    · by_cases hc : st.addedCapabilities.any (fun cap => cap.name = n) = true
      · simp [handleAddMcpTool, hj, hq, hc]
      · simp [handleAddMcpTool, hj, hq, hc]

/-- Claim C10: `omni.py`'s `show_design_workflow` command dispatches to
`handle_show_design_workflow`, a name defined nowhere in the program, so
the invocation raises `NameError` before `log_transaction` runs and no
transaction is recorded — while every other parsed command appends exactly
one transaction entry. -/
theorem claim_C10_show_design_workflow_crashes :
    (omniEnvHas ("handle_show_design_workflow") = false) ∧
    (∀ (qwen : OmniPrompt → String) (ts ui : String) (st : OmniState),
        omniMain qwen ts ui OmniCmd.showDesignWorkflow st =
          Except.error (PyExn.nameError ("handle_show_design_workflow"))) ∧
    (∀ (qwen : OmniPrompt → String) (ts ui : String) (cmd : OmniCmd) (st : OmniState),
        cmd ≠ OmniCmd.showDesignWorkflow →
        ∃ (st' : OmniState) (tx : Transaction),
          omniMain qwen ts ui cmd st = Except.ok st' ∧
          st'.transactionsLog = st.transactionsLog ++ [tx]) := by
  have henv : omniEnvHas ("handle_show_design_workflow") = false := by decide
  refine ⟨henv, ?_, ?_⟩
  · intro qwen ts ui st
    simp [omniMain, omniDispatch, henv]
  · intro qwen ts ui cmd st hne
    have hdisp : ∃ ar st2, omniDispatch qwen cmd st = Except.ok (ar, st2) ∧
        st2.transactionsLog = st.transactionsLog := by
      cases cmd with
      | help => exact ⟨helpAgentResponse qwen st, st, rfl, rfl⟩
      | noCommand => exact ⟨helpAgentResponse qwen st, st, rfl, rfl⟩
      | showTransactions => exact ⟨handleShowTransactions st, st, rfl, rfl⟩
      | unknownCmd s => exact ⟨"Reported unknown command: " ++ s, st, rfl, rfl⟩
      | showDesignWorkflow => exact absurd rfl hne
      | add n d =>
        have hlog := handleAddCapability_log qwen st n d
        cases hp : handleAddCapability qwen st n d with
        | mk ar st2 =>
          rw [hp] at hlog
          exact ⟨ar, st2, by simp [omniDispatch, hp], hlog⟩
      | addMcpTool n c d =>
        have hlog := handleAddMcpTool_log qwen st n c d
        cases hp : handleAddMcpTool qwen st n c d with
        | mk ar st2 =>
          rw [hp] at hlog
          exact ⟨ar, st2, by simp [omniDispatch, hp], hlog⟩
    obtain ⟨ar, st2, hd, hlog⟩ := hdisp
    refine ⟨{ st2 with transactionsLog := st2.transactionsLog ++
        [Transaction.mk ts ui (if ar = "" then "Error: Agent response not set for this interaction." else ar)] },
      Transaction.mk ts ui (if ar = "" then "Error: Agent response not set for this interaction." else ar),
      ?_, ?_⟩
    · simp [omniMain, hd]
    · simp [hlog]

/-! ## C7: a provider error terminates the loop immediately -/

/-- Claim C7: when the provider call reports an error, the loop breaks at
once (lines 438-440): the run ends `providerError`, the history is left
exactly as it was, and the trace is extended by that one provider call
only — no tool dispatch, no retry, and no further provider call happen. -/
theorem claim_C7_provider_error_stops_loop
    (oracle : Nat → PResp) (gen : GenArgs → String) (fuel i : Nat)
    (msgs : List Turn) (tr : List Event) (emsg : String)
    (herr : (oracle i).errorField = some emsg) (hne : emsg ≠ "") :
    agentLoop oracle gen (fuel + 1) i msgs tr =
      FinalState.mk msgs (i + 1) false ExitKind.providerError (tr ++ [Event.callLLM i]) := by
  simp [agentLoop, herr, truthyOpt, hne]

/-- Witness for C7: a concrete run whose first provider call fails. -/
theorem claim_C7_provider_error_stops_loop_witness :
    ((fun _ => errorResp ("Error: boom")) 0).errorField = some ("Error: boom") ∧
    ("Error: boom" : String) ≠ "" ∧
    agentLoop (fun _ => errorResp ("Error: boom")) (fun _ => "out") 3 0
        [Turn.mk Role.user [Block.text ("hi")]] [] =
      FinalState.mk [Turn.mk Role.user [Block.text ("hi")]] 1 false ExitKind.providerError
        [Event.callLLM 0] := by
  refine ⟨rfl, by decide, ?_⟩
  exact claim_C7_provider_error_stops_loop (fun _ => errorResp ("Error: boom")) (fun _ => "out")
    2 0 [Turn.mk Role.user [Block.text ("hi")]] [] ("Error: boom") rfl (by decide)

/-! ## C5: text-only turn is the success exit -/

/-- Claim C5: an assistant turn with no tool-call requests and a non-empty
text block terminates the loop as the delivered final answer (lines
442-460); with `max_loops = 1` this happens after exactly one iteration and
the run reports success. -/
theorem claim_C5_final_text_terminates :
    (∀ (oracle : Nat → PResp) (gen : GenArgs → String) (fuel i : Nat)
        (msgs : List Turn) (tr : List Event) (s : String),
      (oracle i).errorField = none → (oracle i).toolCalls = [] →
      (oracle i).content = some s → pyStrip s ≠ "" →
      agentLoop oracle gen (fuel + 1) i msgs tr =
        FinalState.mk (msgs ++ [Turn.mk Role.assistant [Block.text s]]) (i + 1) true
          ExitKind.finalText (tr ++ [Event.callLLM i])) ∧
    (∀ (oracle : Nat → PResp) (gen : GenArgs → String) (prompt s : String),
      (oracle 0).errorField = none → (oracle 0).toolCalls = [] →
      (oracle 0).content = some s → pyStrip s ≠ "" →
      (runAgent oracle gen 1 prompt).exit = ExitKind.finalText ∧
      (runAgent oracle gen 1 prompt).loopCount = 1 ∧
      (runAgent oracle gen 1 prompt).finalAnswer = true ∧
      finalReport (runAgent oracle gen 1 prompt) 1 = Report.success) := by
  have key : ∀ (oracle : Nat → PResp) (gen : GenArgs → String) (fuel i : Nat)
      (msgs : List Turn) (tr : List Event) (s : String),
      (oracle i).errorField = none → (oracle i).toolCalls = [] →
      (oracle i).content = some s → pyStrip s ≠ "" →
      agentLoop oracle gen (fuel + 1) i msgs tr =
        FinalState.mk (msgs ++ [Turn.mk Role.assistant [Block.text s]]) (i + 1) true
          ExitKind.finalText (tr ++ [Event.callLLM i]) := by
    intro oracle gen fuel i msgs tr s herr htc hct hs
    have hsne : s ≠ "" := by
      intro h
      rw [h] at hs
      exact hs (by decide)
    simp [agentLoop, herr, htc, hct, truthyOpt, normalizeOllama, normToolCalls, hsne,
      toolCallsOf, hasTextResponse, hs]
  refine ⟨key, ?_⟩
  intro oracle gen prompt s herr htc hct hs
  have h := key oracle gen 0 0 [Turn.mk Role.user [Block.text prompt]] [] s herr htc hct hs
  unfold runAgent
  rw [h]
  exact ⟨rfl, rfl, rfl, rfl⟩

/-- Witness for C5 at a concrete one-iteration run. -/
theorem claim_C5_final_text_terminates_witness :
    ((fun _ => PResp.mk none (some ("The answer is 42.")) []) 0).errorField = none ∧
    ((fun _ => PResp.mk none (some ("The answer is 42.")) []) 0).toolCalls = [] ∧
    pyStrip ("The answer is 42.") ≠ "" ∧
    (runAgent (fun _ => PResp.mk none (some ("The answer is 42.")) []) (fun _ => "out") 1
        ("question")).exit = ExitKind.finalText ∧
    (runAgent (fun _ => PResp.mk none (some ("The answer is 42.")) []) (fun _ => "out") 1
        ("question")).loopCount = 1 ∧
    finalReport (runAgent (fun _ => PResp.mk none (some ("The answer is 42.")) []) (fun _ => "out") 1
        ("question")) 1 = Report.success := by
  refine ⟨rfl, rfl, by decide, ?_⟩
  have h := claim_C5_final_text_terminates.2 (fun _ => PResp.mk none (some ("The answer is 42.")) [])
    (fun _ => "out") ("question") ("The answer is 42.") rfl rfl rfl (by decide)
  exact ⟨h.1, h.2.1, h.2.2.2⟩

/-! ## C6: empty turn is a warning-level stop -/

/-- The backend turn carries no usable text: `content` absent, empty, or
whitespace-only. -/
def blankContent : Option String → Bool
  | none => true
  | some s => pyStrip s = ""

/-- Claim C6: an assistant turn with no tool-call requests and no non-empty
text ends the loop as a no-op stop (lines 510-512): the run terminates (not
a crash — the exit is a plain break), no text answer is recorded, and the
exit is distinguishable from the final-text success. -/
theorem claim_C6_noop_turn_terminates
    (oracle : Nat → PResp) (gen : GenArgs → String) (fuel i : Nat)
    (msgs : List Turn) (tr : List Event)
    (herr : (oracle i).errorField = none) (htc : (oracle i).toolCalls = [])
    (hblank : blankContent ((oracle i).content) = true) :
    (agentLoop oracle gen (fuel + 1) i msgs tr).exit = ExitKind.noOp ∧
    (agentLoop oracle gen (fuel + 1) i msgs tr).finalAnswer = false ∧
    (agentLoop oracle gen (fuel + 1) i msgs tr).exit ≠ ExitKind.finalText ∧
    (∀ e : PyExn, (agentLoop oracle gen (fuel + 1) i msgs tr).exit ≠ ExitKind.crashed e) := by
  have key : agentLoop oracle gen (fuel + 1) i msgs tr =
      FinalState.mk
        (msgs ++ [Turn.mk Role.assistant
          (if truthyOpt ((oracle i).content) then [Block.text (((oracle i).content).getD "")] else [])])
        (i + 1) false ExitKind.noOp (tr ++ [Event.callLLM i]) := by
    rcases hct : (oracle i).content with _ | s
    · rw [hct] at hblank
      simp [agentLoop, herr, htc, hct, truthyOpt, normalizeOllama, normToolCalls,
        toolCallsOf, hasTextResponse]
    · rw [hct] at hblank
      have hs : pyStrip s = "" := by
        by_contra hcon
        simp [blankContent, hcon] at hblank
      by_cases hse : s = ""
      · simp [agentLoop, herr, htc, hct, truthyOpt, normalizeOllama, normToolCalls,
          toolCallsOf, hasTextResponse, hse]
      · simp [agentLoop, herr, htc, hct, truthyOpt, normalizeOllama, normToolCalls,
          toolCallsOf, hasTextResponse, hse, hs]
  rw [key]
  exact ⟨rfl, rfl, by simp, fun e => by simp⟩

/-- Witness for C6: the backend returns an empty text string and no tool
calls. -/
theorem claim_C6_noop_turn_terminates_witness :
    ((fun _ => PResp.mk none (some ("")) []) 0).errorField = none ∧
    ((fun _ => PResp.mk none (some ("")) []) 0).toolCalls = [] ∧
    blankContent (((fun _ => PResp.mk none (some ("")) []) 0).content) = true ∧
    (agentLoop (fun _ => PResp.mk none (some ("")) []) (fun _ => "out") 3 0
        [Turn.mk Role.user [Block.text ("hi")]] []).exit = ExitKind.noOp ∧
    (agentLoop (fun _ => PResp.mk none (some ("")) []) (fun _ => "out") 3 0
        [Turn.mk Role.user [Block.text ("hi")]] []).finalAnswer = false := by
  refine ⟨rfl, rfl, by decide, ?_⟩
  have h := claim_C6_noop_turn_terminates (fun _ => PResp.mk none (some ("")) []) (fun _ => "out")
    2 0 [Turn.mk Role.user [Block.text ("hi")]] [] rfl rfl (by decide)
  exact ⟨h.1, h.2.1⟩

/-! ## C2: malformed string tool-call arguments -/

/-- A backend response whose single tool call carries the malformed
string-encoded arguments of the spec's scenario. -/
def c2Oracle : Nat → PResp := fun _ =>
  PResp.mk none none
    [RawToolCall.mk ("call_0") ("run_ollama_generate") (RawArgs.argStr ("\x7bnot valid json"))]

/-- Counterexample to claim C2: with
`tool_calls[0].function.arguments = "\x7bnot valid json"`, the run does not
continue with an error-flagged tool result — `json.loads` at line 430 is
outside any `try`, the run dies with the decode error during the first
iteration, no tool executes, and nothing is ever appended to the history. -/
theorem claim_C2_counterexample :
    (runAgent c2Oracle (fun _ => "delegated output") 7 ("task")).exit =
      ExitKind.crashed (PyExn.jsonDecodeError ("\x7bnot valid json")) ∧
    (runAgent c2Oracle (fun _ => "delegated output") 7 ("task")).trace = [Event.callLLM 0] ∧
    (runAgent c2Oracle (fun _ => "delegated output") 7 ("task")).messages =
      [Turn.mk Role.user [Block.text ("task")]] :=
  ⟨rfl, rfl, rfl⟩

/-- Claim C2 as amended: when the chat-completion backend delivers a tool
call whose `arguments` is a string that does not decode as JSON, the
`json.loads` in normalization (line 430) raises an uncaught
`json.JSONDecodeError`: the run terminates crashed at that iteration (it
does not continue), the history is unchanged, and no tool handler is
invoked — in particular the faulty arguments string is never passed to a
tool handler. -/
theorem claim_C2_amended_malformed_args_crash
    (oracle : Nat → PResp) (gen : GenArgs → String) (fuel i : Nat)
    (msgs : List Turn) (tr : List Event) (cid name s : String) (e : PyExn)
    (herr : (oracle i).errorField = none)
    (htc : (oracle i).toolCalls = [RawToolCall.mk cid name (RawArgs.argStr s)])
    (hdec : jsonLoads s = Except.error e) :
    agentLoop oracle gen (fuel + 1) i msgs tr =
      FinalState.mk msgs (i + 1) false (ExitKind.crashed e) (tr ++ [Event.callLLM i]) := by
  simp [agentLoop, herr, htc, truthyOpt, normalizeOllama, normToolCalls, normArg, hdec]

/-- Witness for the amended C2 at the scenario input. -/
theorem claim_C2_amended_malformed_args_crash_witness :
    (c2Oracle 0).errorField = none ∧
    (c2Oracle 0).toolCalls =
      [RawToolCall.mk ("call_0") ("run_ollama_generate") (RawArgs.argStr ("\x7bnot valid json"))] ∧
    jsonLoads ("\x7bnot valid json") =
      Except.error (PyExn.jsonDecodeError ("\x7bnot valid json")) ∧
    agentLoop c2Oracle (fun _ => "delegated output") 7 0
        [Turn.mk Role.user [Block.text ("task")]] [] =
      FinalState.mk [Turn.mk Role.user [Block.text ("task")]] 1 false
        (ExitKind.crashed (PyExn.jsonDecodeError ("\x7bnot valid json"))) [Event.callLLM 0] := by
  refine ⟨rfl, rfl, rfl, ?_⟩
  exact claim_C2_amended_malformed_args_crash c2Oracle (fun _ => "delegated output") 6 0
    [Turn.mk Role.user [Block.text ("task")]] [] ("call_0") ("run_ollama_generate")
    ("\x7bnot valid json") (PyExn.jsonDecodeError ("\x7bnot valid json")) rfl rfl rfl

/-! ## C4: unknown tool names -/

/-- Counterexample to claim C4 as stated: the dispatcher's result block
carries the content `Error: Unknown tool '<name>' called by LLM.` (line
497) — not the content `unknown tool '<name>'` the claim specifies (and
the block, `{"type": "tool_result", "tool_use_id": ..., "content": ...}` at
lines 501-505, has no `is_error` field at all). -/
theorem claim_C4_counterexample :
    executeToolCall (fun _ => "delegate output")
        (ToolUseData.mk ("toolu_1") ("magic_tool") (JVal.jobj [])) =
      Except.ok (Block.toolResult ("toolu_1") ("Error: Unknown tool 'magic_tool' called by LLM.")) ∧
    ("Error: Unknown tool 'magic_tool' called by LLM." : String) ≠ ("unknown tool 'magic_tool'") :=
  ⟨rfl, by decide⟩

/-- Claim C4 as amended: a tool-call request naming any tool other than
`run_ollama_generate` gets the normal (non-raising) result block whose
content is `Error: Unknown tool '<name>' called by LLM.`; the loop does not
crash on it — it appends the error-flagged result as the tool-result turn
and proceeds to the next iteration with that turn in the request payload. -/
theorem claim_C4_amended_unknown_tool :
    (∀ (gen : GenArgs → String) (id name : String) (input : JVal),
      name ≠ "run_ollama_generate" →
      executeToolCall gen (ToolUseData.mk id name input) =
        Except.ok (Block.toolResult id ("Error: Unknown tool '" ++ name ++ "' called by LLM."))) ∧
    (∀ (oracle : Nat → PResp) (gen : GenArgs → String) (fuel i : Nat)
        (msgs : List Turn) (tr : List Event) (cid name : String)
        (f : List (String × JVal)),
      (oracle i).errorField = none → (oracle i).content = none →
      (oracle i).toolCalls = [RawToolCall.mk cid name (RawArgs.argObj f)] →
      name ≠ "run_ollama_generate" →
      agentLoop oracle gen (fuel + 1) i msgs tr =
        agentLoop oracle gen fuel (i + 1)
          (msgs ++ [Turn.mk Role.assistant [Block.toolUse cid name (JVal.jobj f)],
            Turn.mk Role.user
              [Block.toolResult cid ("Error: Unknown tool '" ++ name ++ "' called by LLM.")]])
          (tr ++ [Event.callLLM i, Event.execTool name])) := by
  constructor
  · intro gen id name input hname
    simp [executeToolCall, hname]
  · intro oracle gen fuel i msgs tr cid name f herr hct htc hname
    simp [agentLoop, herr, hct, htc, truthyOpt, normalizeOllama, normToolCalls, normArg,
      toolCallsOf, hasTextResponse, execCalls, executeToolCall, hname]

/-- Witness for the amended C4: a concrete run whose first response calls
the unregistered tool `magic_tool`, then answers with text; the run does
not raise, the error-flagged result is in the history, and the loop made a
second provider call. -/
theorem claim_C4_amended_unknown_tool_witness :
    (("magic_tool" : String) ≠ "run_ollama_generate") ∧
    executeToolCall (fun _ => "delegate output")
        (ToolUseData.mk ("toolu_9") ("magic_tool") (JVal.jobj [("x", JVal.jnum 1)])) =
      Except.ok (Block.toolResult ("toolu_9") ("Error: Unknown tool 'magic_tool' called by LLM.")) ∧
    agentLoop
        (fun j => if j = 0 then
          PResp.mk none none [RawToolCall.mk ("toolu_9") ("magic_tool") (RawArgs.argObj [("x", JVal.jnum 1)])]
          else PResp.mk none (some ("done")) [])
        (fun _ => "delegate output") 3 0 [Turn.mk Role.user [Block.text ("hi")]] [] =
      agentLoop
        (fun j => if j = 0 then
          PResp.mk none none [RawToolCall.mk ("toolu_9") ("magic_tool") (RawArgs.argObj [("x", JVal.jnum 1)])]
          else PResp.mk none (some ("done")) [])
        (fun _ => "delegate output") 2 1
        ([Turn.mk Role.user [Block.text ("hi")]] ++
          [Turn.mk Role.assistant [Block.toolUse ("toolu_9") ("magic_tool") (JVal.jobj [("x", JVal.jnum 1)])],
           Turn.mk Role.user
             [Block.toolResult ("toolu_9") ("Error: Unknown tool 'magic_tool' called by LLM.")]])
        ([] ++ [Event.callLLM 0, Event.execTool ("magic_tool")]) := by
  refine ⟨by decide, ?_, ?_⟩
  · exact claim_C4_amended_unknown_tool.1 (fun _ => "delegate output") ("toolu_9") ("magic_tool")
      (JVal.jobj [("x", JVal.jnum 1)]) (by decide)
  · exact claim_C4_amended_unknown_tool.2
      (fun j => if j = 0 then
        PResp.mk none none [RawToolCall.mk ("toolu_9") ("magic_tool") (RawArgs.argObj [("x", JVal.jnum 1)])]
        else PResp.mk none (some ("done")) [])
      (fun _ => "delegate output") 2 0 [Turn.mk Role.user [Block.text ("hi")]] []
      ("toolu_9") ("magic_tool") [("x", JVal.jnum 1)] rfl rfl rfl (by decide)

/-! ## Dispatch characterisation (shared by C1, C3, C9) -/

/-- Every successful dispatch result is a `tool_result` block carrying the
request's own id (lines 501-505). -/
theorem executeToolCall_shape (gen : GenArgs → String) (c : ToolUseData) (b : Block)
    (h : executeToolCall gen c = Except.ok b) : ∃ content, b = Block.toolResult c.id content := by
  rcases c with ⟨id, nm, input⟩
  by_cases hn : nm = "run_ollama_generate"
  · cases input with
    | jobj f =>
      rcases hm : f.lookup ("model_name") with _ | mv
      · simp [executeToolCall, hn, hm] at h
        exact ⟨_, h.symm⟩
      · rcases hp : f.lookup ("prompt") with _ | pv
        · simp [executeToolCall, hn, hm, hp] at h
          exact ⟨_, h.symm⟩
        · cases hb : (!pyTruthy mv || !pyTruthy pv) with
          | true =>
            simp [executeToolCall, hn, hm, hp, hb] at h
            exact ⟨_, h.symm⟩
          | false =>
            simp [executeToolCall, hn, hm, hp, hb] at h
            exact ⟨_, h.symm⟩
    | jnull => simp [executeToolCall, hn] at h
    | jbool v => simp [executeToolCall, hn] at h
    | jnum v => simp [executeToolCall, hn] at h
    | jstr v => simp [executeToolCall, hn] at h
    | jarr v => simp [executeToolCall, hn] at h
  · simp [executeToolCall, hn] at h
    exact ⟨_, h.symm⟩

/-- A successful batch dispatch executes the calls in their request order,
produces one `tool_result` block per request, and answers exactly the
requested ids in the same order. -/
theorem execCalls_ok (gen : GenArgs → String) :
    ∀ (cs : List ToolUseData) (tr : List Event) (rs : List Block) (tr2 : List Event),
      execCalls gen cs tr = (Except.ok rs, tr2) →
      tr2 = tr ++ cs.map (fun c => Event.execTool c.name) ∧
      (∀ b ∈ rs, isToolResultBlock b = true) ∧
      resultIdsOfBlocks rs = cs.map ToolUseData.id ∧
      rs.length = cs.length := by
  intro cs
  induction cs with
  | nil =>
    intro tr rs tr2 h
    simp [execCalls] at h
    obtain ⟨h1, h2⟩ := h
    subst h1
    subst h2
    simp [resultIdsOfBlocks]
  | cons c cs' ih =>
    intro tr rs tr2 h
    cases he : executeToolCall gen c with
    | error e => simp [execCalls, he] at h
    | ok r =>
      obtain ⟨content, hr⟩ := executeToolCall_shape gen c r he
      cases hrec : execCalls gen cs' (tr ++ [Event.execTool c.name]) with
      | mk res tr' =>
        cases res with
        | error e => simp [execCalls, he, hrec] at h
        | ok rs' =>
          simp [execCalls, he, hrec] at h
          obtain ⟨h1, h2⟩ := h
          subst h1
          subst h2
          obtain ⟨ih1, ih2, ih3, ih4⟩ := ih (tr ++ [Event.execTool c.name]) rs' tr' hrec
          refine ⟨?_, ?_, ?_, ?_⟩
          · rw [ih1]
            simp
          · intro b hb
            cases hb with
            | head =>
              rw [hr]
              rfl
            | tail _ hmem => exact ih2 b hmem
          · rw [hr]
            simp [resultIdsOfBlocks] at ih3 ⊢
            exact ih3
          · simp [ih4]

/-! ## C3: reaching the loop budget -/

/-- Dispatch of a tool call whose decoded `input` is a dict never raises:
every branch of lines 475-498 produces a result block for the request id. -/
theorem executeToolCall_ok_of_obj (gen : GenArgs → String) (id nm : String)
    (f : List (String × JVal)) :
    ∃ content, executeToolCall gen (ToolUseData.mk id nm (JVal.jobj f)) =
      Except.ok (Block.toolResult id content) := by
  by_cases hn : nm = "run_ollama_generate"
  · rcases hm : f.lookup ("model_name") with _ | mv
    · exact ⟨"Error: 'model_name' and 'prompt' are required for run_ollama_generate.",
        by simp [executeToolCall, hn, hm]⟩
    · rcases hp : f.lookup ("prompt") with _ | pv
      · exact ⟨"Error: 'model_name' and 'prompt' are required for run_ollama_generate.",
          by simp [executeToolCall, hn, hm, hp]⟩
      · cases hb : (!pyTruthy mv || !pyTruthy pv) with
        | true =>
          exact ⟨"Error: 'model_name' and 'prompt' are required for run_ollama_generate.",
            by simp [executeToolCall, hn, hm, hp, hb]⟩
        | false =>
          exact ⟨gen (GenArgs.mk mv pv (f.lookup ("system_prompt")) (f.lookup ("context_window"))),
            by simp [executeToolCall, hn, hm, hp, hb]⟩
  · exact ⟨"Error: Unknown tool '" ++ nm ++ "' called by LLM.", by simp [executeToolCall, hn]⟩

/-- When every provider response requests a tool call (with dict
arguments), the `for` loop runs its full range and exits by exhaustion:
`loop_count` advances by the full fuel and the run is never final. -/
theorem agentLoop_all_tool_calls_budget (oracle : Nat → PResp) (gen : GenArgs → String)
    (h : ∀ j, ∃ cid nm f,
      oracle j = PResp.mk none none [RawToolCall.mk cid nm (RawArgs.argObj f)]) :
    ∀ (fuel i : Nat) (msgs : List Turn) (tr : List Event), ∃ msgs2 tr2,
      agentLoop oracle gen fuel i msgs tr =
        FinalState.mk msgs2 (i + fuel) false ExitKind.budget tr2 := by
  intro fuel
  induction fuel with
  | zero => intro i msgs tr; exact ⟨msgs, tr, by simp [agentLoop]⟩
  | succ fuel ih =>
    intro i msgs tr
    obtain ⟨cid, nm, f, hj⟩ := h i
    obtain ⟨content, hexec⟩ := executeToolCall_ok_of_obj gen cid nm f
    have step : agentLoop oracle gen (fuel + 1) i msgs tr =
        agentLoop oracle gen fuel (i + 1)
          (msgs ++ [Turn.mk Role.assistant [Block.toolUse cid nm (JVal.jobj f)],
            Turn.mk Role.user [Block.toolResult cid content]])
          (tr ++ [Event.callLLM i, Event.execTool nm]) := by
      simp [agentLoop, hj, truthyOpt, normalizeOllama, normToolCalls, normArg, toolCallsOf,
        hasTextResponse, execCalls, hexec]
    rw [step]
    obtain ⟨msgs2, tr2, hrec⟩ := ih (i + 1)
      (msgs ++ [Turn.mk Role.assistant [Block.toolUse cid nm (JVal.jobj f)],
        Turn.mk Role.user [Block.toolResult cid content]])
      (tr ++ [Event.callLLM i, Event.execTool nm])
    have harith : (i + 1) + fuel = i + (fuel + 1) := by omega
    rw [harith] at hrec
    exact ⟨msgs2, tr2, hrec⟩

/-- Processing a batch of Gemini function calls none of which is
`run_final_sql_query` never returns early from `main`. -/
theorem processCalls_no_final (tb : GFuncCall → Except String String) (et : String) (tag : Nat) :
    ∀ (l : List GFuncCall) (msgs : List DuckMsg),
      (∀ fc ∈ l, fc.name ≠ "run_final_sql_query") →
      ∃ msgs2, processCalls tb et tag l msgs = (msgs2, false) := by
  intro l
  induction l with
  | nil => intro msgs _; exact ⟨msgs, rfl⟩
  | cons fc rest ih =>
    intro msgs hl
    have hfc : fc.name ≠ "run_final_sql_query" := hl fc (by simp)
    have hrest : ∀ g ∈ rest, g.name ≠ "run_final_sql_query" := fun g hg => hl g (by simp [hg])
    by_cases h4 : fc.name = "list_tables" ∨ fc.name = "describe_table" ∨
        fc.name = "sample_table" ∨ fc.name = "run_test_sql_query"
    · cases htb : tb fc with
      | ok s =>
        obtain ⟨m2, hm⟩ := ih
          (msgs ++ [DuckMsg.modelMsg tag, DuckMsg.toolMsg fc.name (DuckToolResp.resultResp s)]) hrest
        exact ⟨m2, by simp [processCalls, h4, htb, hm]⟩
      | error m =>
        obtain ⟨m2, hm⟩ := ih
          (msgs ++ [DuckMsg.modelMsg tag,
            DuckMsg.toolMsg fc.name (DuckToolResp.errorResp ("Error executing " ++ fc.name ++ ": " ++ m))]) hrest
        exact ⟨m2, by simp [processCalls, h4, htb, hm]⟩
    · obtain ⟨m2, hm⟩ := ih
        (msgs ++ [DuckMsg.modelMsg tag,
          DuckMsg.toolMsg fc.name (DuckToolResp.errorResp ("Error executing " ++ fc.name ++ ": " ++ et))]) hrest
      exact ⟨m2, by simp [processCalls, h4, hfc, hm]⟩

/-- When every Gemini response carries function calls and never the final
query, the DuckDB loop always ends in the budget `raise`. -/
theorem duckdbLoop_budget (orc : Nat → Except String GResp)
    (tb : GFuncCall → Except String String) (et : String) (maxLoops : Nat)
    (h : ∀ j, ∃ r, orc j = Except.ok r ∧ r.functionCalls ≠ [] ∧
      ∀ fc ∈ r.functionCalls, fc.name ≠ "run_final_sql_query") :
    ∀ (fuel iters : Nat) (msgs : List DuckMsg), ∃ k msgs2,
      duckdbLoop orc tb et maxLoops fuel iters msgs =
        DuckResult.mk (Except.error (PyExn.runtimeError (duckBudgetMsg k maxLoops))) msgs2 k := by
  intro fuel
  induction fuel with
  | zero => intro iters msgs; exact ⟨iters + 1, msgs, by simp [duckdbLoop]⟩
  | succ fuel ih =>
    intro iters msgs
    by_cases hb : maxLoops ≤ iters + 1
    · exact ⟨iters + 1, msgs, by simp [duckdbLoop, hb]⟩
    · obtain ⟨r, hj, hne, hnf⟩ := h iters
      have hfc : r.functionCalls.isEmpty = false := by
        cases hc : r.functionCalls with
        | nil => exact absurd hc hne
        | cons a l => simp
      obtain ⟨m2, hm⟩ := processCalls_no_final tb et r.contentTag r.functionCalls msgs hnf
      obtain ⟨k, m3, hrec⟩ := ih (iters + 1) m2
      exact ⟨k, m3, by simp [duckdbLoop, hb, hj, hfc, hm, hrec]⟩

/-- Claim C3: exhausting the loop budget without a final text answer ends
the run as budget-exceeded and not silently.  In the delegator with
`max_loops = 3` and every response requesting a tool call, the run
terminates `budget` with `loop_count = 3` and prints the
maximum-loops warning (not the success message); in the DuckDB agent the
budget check raises `Exception("Maximum compute loops reached: ...")`,
a fatal uncaught error. -/
theorem claim_C3_budget_exceeded :
    (∀ (oracle : Nat → PResp) (gen : GenArgs → String) (prompt : String),
      (∀ j, ∃ cid nm f,
        oracle j = PResp.mk none none [RawToolCall.mk cid nm (RawArgs.argObj f)]) →
      (runAgent oracle gen 3 prompt).exit = ExitKind.budget ∧
      (runAgent oracle gen 3 prompt).loopCount = 3 ∧
      (runAgent oracle gen 3 prompt).finalAnswer = false ∧
      finalReport (runAgent oracle gen 3 prompt) 3 = Report.budgetWarning) ∧
    (∀ (orc : Nat → Except String GResp) (tb : GFuncCall → Except String String)
        (et : String) (maxLoops : Nat) (prompt : String),
      (∀ j, ∃ r, orc j = Except.ok r ∧ r.functionCalls ≠ [] ∧
        ∀ fc ∈ r.functionCalls, fc.name ≠ "run_final_sql_query") →
      ∃ k msgs2, duckdbRun orc tb et maxLoops prompt =
        DuckResult.mk (Except.error (PyExn.runtimeError (duckBudgetMsg k maxLoops))) msgs2 k) := by
  constructor
  · intro oracle gen prompt h
    obtain ⟨msgs2, tr2, hrun⟩ := agentLoop_all_tool_calls_budget oracle gen h 3 0
      [Turn.mk Role.user [Block.text prompt]] []
    unfold runAgent
    rw [hrun]
    exact ⟨rfl, rfl, rfl, rfl⟩
  · intro orc tb et maxLoops prompt h
    exact duckdbLoop_budget orc tb et maxLoops h maxLoops 0 [DuckMsg.userMsg prompt]

/-- The scenario oracle for the C3 witness: every response one tool call. -/
def c3Oracle : Nat → PResp := fun _ =>
  PResp.mk none none
    [RawToolCall.mk ("call_a") ("run_ollama_generate")
      (RawArgs.argObj [("model_name", JVal.jstr ("gemma2:2b")), ("prompt", JVal.jstr ("sub task"))])]

/-- The scenario oracle for the C3 witness on the DuckDB loop. -/
def c3DuckOracle : Nat → Except String GResp := fun _ =>
  Except.ok (GResp.mk [GFuncCall.mk ("list_tables") [("reasoning", JVal.jstr ("discover"))]] 0)

/-- Witness for C3 at the spec's scenario (`max_iterations = 3`). -/
theorem claim_C3_budget_exceeded_witness :
    ((runAgent c3Oracle (fun _ => "delegated") 3 ("task")).exit = ExitKind.budget ∧
      (runAgent c3Oracle (fun _ => "delegated") 3 ("task")).loopCount = 3 ∧
      finalReport (runAgent c3Oracle (fun _ => "delegated") 3 ("task")) 3 = Report.budgetWarning) ∧
    (∃ k msgs2, duckdbRun c3DuckOracle (fun _ => Except.ok ("t1 t2")) ("unbound") 3 ("query") =
      DuckResult.mk (Except.error (PyExn.runtimeError (duckBudgetMsg k 3))) msgs2 k) := by
  constructor
  · have h := claim_C3_budget_exceeded.1 c3Oracle (fun _ => "delegated") ("task")
      (fun j => ⟨"call_a", "run_ollama_generate",
        [("model_name", JVal.jstr ("gemma2:2b")), ("prompt", JVal.jstr ("sub task"))], rfl⟩)
    exact ⟨h.1, h.2.1, h.2.2.2⟩
  · exact claim_C3_budget_exceeded.2 c3DuckOracle (fun _ => Except.ok ("t1 t2")) ("unbound") 3
      ("query")
      (fun j => ⟨GResp.mk [GFuncCall.mk ("list_tables") [("reasoning", JVal.jstr ("discover"))]] 0,
        rfl, by simp, by simp⟩)

/-! ## C9: the conversation history is append-only -/

/-- Processing one response's function calls only appends to the DuckDB
history. -/
theorem processCalls_prefix (tb : GFuncCall → Except String String) (et : String) (tag : Nat) :
    ∀ (l : List GFuncCall) (msgs : List DuckMsg),
      ∃ tail, (processCalls tb et tag l msgs).1 = msgs ++ tail := by
  intro l
  induction l with
  | nil => intro msgs; exact ⟨[], by simp [processCalls]⟩
  | cons fc rest ih =>
    intro msgs
    by_cases h4 : fc.name = "list_tables" ∨ fc.name = "describe_table" ∨
        fc.name = "sample_table" ∨ fc.name = "run_test_sql_query"
    · cases htb : tb fc with
      | ok s =>
        obtain ⟨tail, htail⟩ := ih
          (msgs ++ [DuckMsg.modelMsg tag, DuckMsg.toolMsg fc.name (DuckToolResp.resultResp s)])
        refine ⟨[DuckMsg.modelMsg tag, DuckMsg.toolMsg fc.name (DuckToolResp.resultResp s)] ++ tail, ?_⟩
        simp [processCalls, h4, htb, htail]
      | error m =>
        obtain ⟨tail, htail⟩ := ih
          (msgs ++ [DuckMsg.modelMsg tag,
            DuckMsg.toolMsg fc.name (DuckToolResp.errorResp ("Error executing " ++ fc.name ++ ": " ++ m))])
        refine ⟨[DuckMsg.modelMsg tag,
          DuckMsg.toolMsg fc.name (DuckToolResp.errorResp ("Error executing " ++ fc.name ++ ": " ++ m))] ++ tail, ?_⟩
        simp [processCalls, h4, htb, htail]
    · by_cases hf : fc.name = "run_final_sql_query"
      · cases htb : tb fc with
        | ok s => exact ⟨[], by simp [processCalls, h4, hf, htb]⟩
        | error m =>
          obtain ⟨tail, htail⟩ := ih
            (msgs ++ [DuckMsg.modelMsg tag,
              DuckMsg.toolMsg fc.name (DuckToolResp.errorResp ("Error executing " ++ fc.name ++ ": " ++ m))])
          refine ⟨[DuckMsg.modelMsg tag,
            DuckMsg.toolMsg fc.name (DuckToolResp.errorResp ("Error executing " ++ fc.name ++ ": " ++ m))] ++ tail, ?_⟩
          simp [processCalls, h4, hf, htb]
          simpa [hf] using htail
      · obtain ⟨tail, htail⟩ := ih
          (msgs ++ [DuckMsg.modelMsg tag,
            DuckMsg.toolMsg fc.name (DuckToolResp.errorResp ("Error executing " ++ fc.name ++ ": " ++ et))])
        refine ⟨[DuckMsg.modelMsg tag,
          DuckMsg.toolMsg fc.name (DuckToolResp.errorResp ("Error executing " ++ fc.name ++ ": " ++ et))] ++ tail, ?_⟩
        simp [processCalls, h4, hf, htail]

/-- Claim C9: both loops only ever append to the conversation: whatever the
outcome of the remaining iterations, the history at entry is an unchanged
prefix of the history at exit (no rewriting, no compaction, no size cap),
and in the delegator every appended turn is an assistant turn or the
tool-result turn. -/
theorem claim_C9_history_append_only :
    (∀ (oracle : Nat → PResp) (gen : GenArgs → String) (fuel i : Nat)
        (msgs : List Turn) (tr : List Event),
      ∃ tail, (agentLoop oracle gen fuel i msgs tr).messages = msgs ++ tail ∧
        ∀ t ∈ tail, t.role = Role.assistant ∨ isToolResultTurn t = true) ∧
    (∀ (orc : Nat → Except String GResp) (tb : GFuncCall → Except String String)
        (et : String) (maxLoops fuel iters : Nat) (msgs : List DuckMsg),
      ∃ tail, (duckdbLoop orc tb et maxLoops fuel iters msgs).messages = msgs ++ tail) := by
  constructor
  · intro oracle gen fuel
    induction fuel with
    | zero =>
      intro i msgs tr
      exact ⟨[], by simp [agentLoop], by simp⟩
    | succ fuel ih =>
      intro i msgs tr
      by_cases h1 : truthyOpt (oracle i).errorField = true
      · exact ⟨[], by simp [agentLoop, h1], by simp⟩
      · cases hn : normalizeOllama (oracle i) with
        | error e => exact ⟨[], by simp [agentLoop, h1, hn], by simp⟩
        | ok blocks =>
          by_cases h2 : ((toolCallsOf blocks).isEmpty && hasTextResponse blocks) = true
          · refine ⟨[Turn.mk Role.assistant blocks], by simp [agentLoop, h1, hn, h2], ?_⟩
            intro t ht
            rw [List.mem_singleton.mp ht]
            exact Or.inl rfl
          · by_cases h3 : (!(toolCallsOf blocks).isEmpty) = true
            · cases hex : execCalls gen (toolCallsOf blocks) (tr ++ [Event.callLLM i]) with
              | mk res tr2 =>
                cases res with
                | error e =>
                  refine ⟨[Turn.mk Role.assistant blocks], by simp [agentLoop, h1, hn, h2, h3, hex], ?_⟩
                  intro t ht
                  rw [List.mem_singleton.mp ht]
                  exact Or.inl rfl
                | ok results =>
                  obtain ⟨hx1, hx2, hx3, hx4⟩ := execCalls_ok gen (toolCallsOf blocks) _ _ _ hex
                  by_cases hres : results.isEmpty = true
                  · obtain ⟨tail, htail, hmem⟩ := ih (i + 1) (msgs ++ [Turn.mk Role.assistant blocks]) tr2
                    refine ⟨[Turn.mk Role.assistant blocks] ++ tail, ?_, ?_⟩
                    · simp [agentLoop, h1, hn, h2, h3, hex, hres] at htail ⊢
                      simp [htail]
                    · intro t ht
                      rcases List.mem_append.mp ht with hl | hl
                      · rw [List.mem_singleton.mp hl]
                        exact Or.inl rfl
                      · exact hmem t hl
                  · have hTRT : isToolResultTurn (Turn.mk Role.user results) = true := by
                      simp [isToolResultTurn, hres]
                      intro b hb
                      exact hx2 b hb
                    obtain ⟨tail, htail, hmem⟩ := ih (i + 1)
                      (msgs ++ [Turn.mk Role.assistant blocks, Turn.mk Role.user results]) tr2
                    refine ⟨[Turn.mk Role.assistant blocks, Turn.mk Role.user results] ++ tail, ?_, ?_⟩
                    · simp [agentLoop, h1, hn, h2, h3, hex, hres] at htail ⊢
                      simp [htail]
                    · intro t ht
                      rcases List.mem_append.mp ht with hl | hl
                      · rcases List.mem_cons.mp hl with he1 | he1
                        · rw [he1]
                          exact Or.inl rfl
                        · rw [List.mem_singleton.mp he1]
                          exact Or.inr hTRT
                      · exact hmem t hl
            · refine ⟨[Turn.mk Role.assistant blocks], by simp [agentLoop, h1, hn, h2, h3], ?_⟩
              intro t ht
              rw [List.mem_singleton.mp ht]
              exact Or.inl rfl
  · intro orc tb et maxLoops fuel
    induction fuel with
    | zero =>
      intro iters msgs
      exact ⟨[], by simp [duckdbLoop]⟩
    | succ fuel ih =>
      intro iters msgs
      by_cases hb : maxLoops ≤ iters + 1
      · exact ⟨[], by simp [duckdbLoop, hb]⟩
      · cases ho : orc iters with
        | error m => exact ⟨[], by simp [duckdbLoop, hb, ho]⟩
        | ok r =>
          by_cases hfc : r.functionCalls.isEmpty = true
          · obtain ⟨tail, htail⟩ := ih (iters + 1) (msgs ++ [DuckMsg.modelMsg r.contentTag])
            refine ⟨[DuckMsg.modelMsg r.contentTag] ++ tail, ?_⟩
            simp [duckdbLoop, hb, ho, hfc] at htail ⊢
            simp [htail]
          · cases hpc : processCalls tb et r.contentTag r.functionCalls msgs with
            | mk m2 fin =>
              obtain ⟨tail1, htail1⟩ := processCalls_prefix tb et r.contentTag r.functionCalls msgs
              rw [hpc] at htail1
              cases fin with
              | true =>
                refine ⟨tail1, ?_⟩
                simp [duckdbLoop, hb, ho, hfc, hpc]
                exact htail1
              | false =>
                obtain ⟨tail2, htail2⟩ := ih (iters + 1) m2
                have hm2 : m2 = msgs ++ tail1 := htail1
                refine ⟨tail1 ++ tail2, ?_⟩
                simp [duckdbLoop, hb, ho, hfc, hpc, htail2]
                rw [hm2, List.append_assoc]

/-- Witness for C9 at a concrete two-iteration run of each loop. -/
theorem claim_C9_history_append_only_witness :
    (∃ tail, (agentLoop
        (fun j => if j = 0 then
          PResp.mk none none
            [RawToolCall.mk ("c1") ("run_ollama_generate")
              (RawArgs.argObj [("model_name", JVal.jstr ("m")), ("prompt", JVal.jstr ("p"))])]
          else PResp.mk none (some ("done")) [])
        (fun _ => "tool output") 3 0 [Turn.mk Role.user [Block.text ("hi")]] []).messages =
      [Turn.mk Role.user [Block.text ("hi")]] ++ tail ∧
      ∀ t ∈ tail, t.role = Role.assistant ∨ isToolResultTurn t = true) ∧
    (∃ tail, (duckdbLoop (fun _ => Except.ok (GResp.mk [] 5)) (fun _ => Except.ok ("r")) ("e") 3 3 0
        [DuckMsg.userMsg ("q")]).messages = [DuckMsg.userMsg ("q")] ++ tail) := by
  constructor
  · exact claim_C9_history_append_only.1
      (fun j => if j = 0 then
        PResp.mk none none
          [RawToolCall.mk ("c1") ("run_ollama_generate")
            (RawArgs.argObj [("model_name", JVal.jstr ("m")), ("prompt", JVal.jstr ("p"))])]
        else PResp.mk none (some ("done")) [])
      (fun _ => "tool output") 3 0 [Turn.mk Role.user [Block.text ("hi")]] []
  · exact claim_C9_history_append_only.2 (fun _ => Except.ok (GResp.mk [] 5))
      (fun _ => Except.ok ("r")) ("e") 3 3 0 [DuckMsg.userMsg ("q")]

/-! ## C1: requests and results match one-to-one, in order -/

/-- Appending a turn with no requests that is not a tool-result turn keeps
the chain well-formed. -/
theorem wfAux_append_one (t : Turn) (ht1 : requestsOf t = []) (ht2 : isToolResultTurn t = false) :
    ∀ (prev : Turn) (ms : List Turn), wfAux prev ms = true → wfAux prev (ms ++ [t]) = true := by
  intro prev ms
  induction ms generalizing prev with
  | nil =>
    intro h
    simp [wfAux] at h
    simp [wfAux, chk, h, ht1, ht2]
  | cons u rest ih =>
    intro h
    simp [wfAux, Bool.and_eq_true] at h
    simp only [List.cons_append, wfAux, Bool.and_eq_true]
    exact ⟨h.1, ih u h.2⟩

/-- Appending an assistant turn with requests together with its matching
tool-result turn keeps the chain well-formed. -/
theorem wfAux_append_pair (a r : Turn) (ha1 : requestsOf a ≠ [])
    (ha2 : isToolResultTurn a = false) (hr1 : isToolResultTurn r = true)
    (hr2 : resultIds r = (requestsOf a).map ToolUseData.id) (hr3 : requestsOf r = []) :
    ∀ (prev : Turn) (ms : List Turn), wfAux prev ms = true → wfAux prev (ms ++ [a, r]) = true := by
  have hae : (requestsOf a).isEmpty = false := by
    cases hq : requestsOf a with
    | nil => exact absurd hq ha1
    | cons x l => rfl
  intro prev ms
  induction ms generalizing prev with
  | nil =>
    intro h
    simp [wfAux] at h
    simp [wfAux, chk, h, hae, ha2, hr1, hr2, hr3]
  | cons u rest ih =>
    intro h
    simp [wfAux, Bool.and_eq_true] at h
    simp only [List.cons_append, wfAux, Bool.and_eq_true]
    exact ⟨h.1, ih u h.2⟩

/-- `wfMessages` is stable under appending a requestless non-result turn. -/
theorem wfMessages_append_one (ms : List Turn) (t : Turn) (h : wfMessages ms = true)
    (ht1 : requestsOf t = []) (ht2 : isToolResultTurn t = false) :
    wfMessages (ms ++ [t]) = true := by
  cases ms with
  | nil => simp [wfMessages, wfAux, ht1, ht2]
  | cons x rest =>
    simp [wfMessages, Bool.and_eq_true] at h
    simp only [List.cons_append, wfMessages, Bool.and_eq_true]
    exact ⟨by simp [h.1], wfAux_append_one t ht1 ht2 x rest h.2⟩

/-- `wfMessages` is stable under appending a request turn plus its matching
result turn. -/
theorem wfMessages_append_pair (ms : List Turn) (a r : Turn) (h : wfMessages ms = true)
    (ha1 : requestsOf a ≠ []) (ha2 : isToolResultTurn a = false)
    (hr1 : isToolResultTurn r = true)
    (hr2 : resultIds r = (requestsOf a).map ToolUseData.id) (hr3 : requestsOf r = []) :
    wfMessages (ms ++ [a, r]) = true := by
  have hae : (requestsOf a).isEmpty = false := by
    cases hq : requestsOf a with
    | nil => exact absurd hq ha1
    | cons x l => rfl
  cases ms with
  | nil => simp [wfMessages, wfAux, chk, hae, ha2, hr1, hr2, hr3]
  | cons x rest =>
    simp [wfMessages, Bool.and_eq_true] at h
    simp only [List.cons_append, wfMessages, Bool.and_eq_true]
    exact ⟨by simp [h.1], wfAux_append_pair a r ha1 ha2 hr1 hr2 hr3 x rest h.2⟩

/-- Claim C1: (i) across any number of loop iterations that do not crash,
the conversation invariant holds: every assistant turn with tool-call
requests is immediately followed by exactly one tool-result turn answering
precisely the requested ids in request order, and no tool-result turn
answers anything else (all results of a turn are appended together before
the next provider call, which only happens in the recursive call after the
append); (ii) the dispatcher executes a turn's requests in the order they
appear in the normalized block sequence, producing results whose ids are
exactly the requests' ids in the same order. -/
theorem claim_C1_tool_results_matched :
    (∀ (oracle : Nat → PResp) (gen : GenArgs → String) (fuel i : Nat)
        (msgs : List Turn) (tr : List Event),
      wfMessages msgs = true →
      (∀ e, (agentLoop oracle gen fuel i msgs tr).exit ≠ ExitKind.crashed e) →
      wfMessages (agentLoop oracle gen fuel i msgs tr).messages = true) ∧
    (∀ (gen : GenArgs → String) (cs : List ToolUseData) (tr : List Event)
        (rs : List Block) (tr2 : List Event),
      execCalls gen cs tr = (Except.ok rs, tr2) →
      tr2 = tr ++ cs.map (fun c => Event.execTool c.name) ∧
      resultIdsOfBlocks rs = cs.map ToolUseData.id) := by
  constructor
  · intro oracle gen fuel
    induction fuel with
    | zero =>
      intro i msgs tr hwf _
      simpa [agentLoop] using hwf
    | succ fuel ih =>
      intro i msgs tr hwf hnc
      by_cases h1 : truthyOpt (oracle i).errorField = true
      · have hstep : agentLoop oracle gen (fuel + 1) i msgs tr =
            FinalState.mk msgs (i + 1) false ExitKind.providerError (tr ++ [Event.callLLM i]) := by
          simp [agentLoop, h1]
        rw [hstep]
        exact hwf
      · cases hn : normalizeOllama (oracle i) with
        | error e =>
          exfalso
          exact hnc e (by simp [agentLoop, h1, hn])
        | ok blocks =>
          by_cases h2 : ((toolCallsOf blocks).isEmpty && hasTextResponse blocks) = true
          · have hcalls : toolCallsOf blocks = [] := by
              cases hq : toolCallsOf blocks with
              | nil => rfl
              | cons x l =>
                rw [hq] at h2
                simp at h2
            have hstep : agentLoop oracle gen (fuel + 1) i msgs tr =
                FinalState.mk (msgs ++ [Turn.mk Role.assistant blocks]) (i + 1) true
                  ExitKind.finalText (tr ++ [Event.callLLM i]) := by
              simp [agentLoop, h1, hn, h2]
            rw [hstep]
            exact wfMessages_append_one msgs (Turn.mk Role.assistant blocks) hwf hcalls rfl
          · by_cases h3 : (!(toolCallsOf blocks).isEmpty) = true
            · cases hex : execCalls gen (toolCallsOf blocks) (tr ++ [Event.callLLM i]) with
              | mk res tr2 =>
                cases res with
                | error e =>
                  exfalso
                  exact hnc e (by simp [agentLoop, h1, hn, h2, h3, hex])
                | ok results =>
                  obtain ⟨hx1, hx2, hx3, hx4⟩ := execCalls_ok gen (toolCallsOf blocks) _ _ _ hex
                  have hcne : toolCallsOf blocks ≠ [] := by
                    intro hq
                    rw [hq] at h3
                    simp at h3
                  have hres : results.isEmpty = false := by
                    cases hq : results with
                    | nil =>
                      rw [hq] at hx4
                      cases hc : toolCallsOf blocks with
                      | nil => exact absurd hc hcne
                      | cons x l =>
                        rw [hc] at hx4
                        simp at hx4
                    | cons x l => rfl
                  have hTRT : isToolResultTurn (Turn.mk Role.user results) = true := by
                    simp [isToolResultTurn, hres]
                    intro b hb
                    exact hx2 b hb
                  have hstep : agentLoop oracle gen (fuel + 1) i msgs tr =
                      agentLoop oracle gen fuel (i + 1)
                        (msgs ++ [Turn.mk Role.assistant blocks, Turn.mk Role.user results]) tr2 := by
                    simp [agentLoop, h1, hn, h2, h3, hex, hres]
                  rw [hstep] at hnc ⊢
                  refine ih (i + 1) _ tr2 ?_ hnc
                  refine wfMessages_append_pair msgs (Turn.mk Role.assistant blocks)
                    (Turn.mk Role.user results) hwf hcne rfl hTRT ?_ rfl
                  exact hx3
            · have hcalls : toolCallsOf blocks = [] := by
                cases hq : toolCallsOf blocks with
                | nil => rfl
                | cons x l =>
                  rw [hq] at h3
                  simp at h3
              have hstep : agentLoop oracle gen (fuel + 1) i msgs tr =
                  FinalState.mk (msgs ++ [Turn.mk Role.assistant blocks]) (i + 1) false
                    ExitKind.noOp (tr ++ [Event.callLLM i]) := by
                simp [agentLoop, h1, hn, h2, h3]
              rw [hstep]
              exact wfMessages_append_one msgs (Turn.mk Role.assistant blocks) hwf hcalls rfl
  · intro gen cs tr rs tr2 h
    obtain ⟨h1, _, h3, _⟩ := execCalls_ok gen cs tr rs tr2 h
    exact ⟨h1, h3⟩

/-- Witness for C1 at a concrete run: one tool-call turn answered in order,
then a final text turn. -/
theorem claim_C1_tool_results_matched_witness :
    (wfMessages [Turn.mk Role.user [Block.text ("hi")]] = true ∧
      (∀ e, (agentLoop
        (fun j => if j = 0 then
          PResp.mk none none
            [RawToolCall.mk ("c1") ("run_ollama_generate")
              (RawArgs.argObj [("model_name", JVal.jstr ("m")), ("prompt", JVal.jstr ("p"))]),
             RawToolCall.mk ("c2") ("magic_tool") (RawArgs.argObj [])]
          else PResp.mk none (some ("done")) [])
        (fun _ => "tool output") 3 0 [Turn.mk Role.user [Block.text ("hi")]] []).exit ≠
          ExitKind.crashed e) ∧
      wfMessages (agentLoop
        (fun j => if j = 0 then
          PResp.mk none none
            [RawToolCall.mk ("c1") ("run_ollama_generate")
              (RawArgs.argObj [("model_name", JVal.jstr ("m")), ("prompt", JVal.jstr ("p"))]),
             RawToolCall.mk ("c2") ("magic_tool") (RawArgs.argObj [])]
          else PResp.mk none (some ("done")) [])
        (fun _ => "tool output") 3 0 [Turn.mk Role.user [Block.text ("hi")]] []).messages = true) ∧
    (execCalls (fun _ => "tool output")
        [ToolUseData.mk ("c1") ("run_ollama_generate")
          (JVal.jobj [("model_name", JVal.jstr ("m")), ("prompt", JVal.jstr ("p"))]),
         ToolUseData.mk ("c2") ("magic_tool") (JVal.jobj [])] [] =
      (Except.ok [Block.toolResult ("c1") ("tool output"),
        Block.toolResult ("c2") ("Error: Unknown tool 'magic_tool' called by LLM.")],
        [Event.execTool ("run_ollama_generate"), Event.execTool ("magic_tool")]) ∧
      [] ++ [Event.execTool ("run_ollama_generate"), Event.execTool ("magic_tool")] =
        ([] : List Event) ++
          ([ToolUseData.mk ("c1") ("run_ollama_generate")
            (JVal.jobj [("model_name", JVal.jstr ("m")), ("prompt", JVal.jstr ("p"))]),
           ToolUseData.mk ("c2") ("magic_tool") (JVal.jobj [])].map
            (fun c => Event.execTool c.name)) ∧
      resultIdsOfBlocks [Block.toolResult ("c1") ("tool output"),
        Block.toolResult ("c2") ("Error: Unknown tool 'magic_tool' called by LLM.")] =
        ["c1", "c2"]) := by
  have hnc : ∀ e, (agentLoop
      (fun j => if j = 0 then
        PResp.mk none none
          [RawToolCall.mk ("c1") ("run_ollama_generate")
            (RawArgs.argObj [("model_name", JVal.jstr ("m")), ("prompt", JVal.jstr ("p"))]),
           RawToolCall.mk ("c2") ("magic_tool") (RawArgs.argObj [])]
        else PResp.mk none (some ("done")) [])
      (fun _ => "tool output") 3 0 [Turn.mk Role.user [Block.text ("hi")]] []).exit ≠
        ExitKind.crashed e := by
    intro e h
    exact ExitKind.noConfusion h
  refine ⟨⟨by decide, hnc, ?_⟩, ?_⟩
  · exact claim_C1_tool_results_matched.1
      (fun j => if j = 0 then
        PResp.mk none none
          [RawToolCall.mk ("c1") ("run_ollama_generate")
            (RawArgs.argObj [("model_name", JVal.jstr ("m")), ("prompt", JVal.jstr ("p"))]),
           RawToolCall.mk ("c2") ("magic_tool") (RawArgs.argObj [])]
        else PResp.mk none (some ("done")) [])
      (fun _ => "tool output") 3 0 [Turn.mk Role.user [Block.text ("hi")]] [] (by decide) hnc
  · refine ⟨rfl, ?_⟩
    exact claim_C1_tool_results_matched.2 (fun _ => "tool output")
      [ToolUseData.mk ("c1") ("run_ollama_generate")
        (JVal.jobj [("model_name", JVal.jstr ("m")), ("prompt", JVal.jstr ("p"))]),
       ToolUseData.mk ("c2") ("magic_tool") (JVal.jobj [])] []
      [Block.toolResult ("c1") ("tool output"),
       Block.toolResult ("c2") ("Error: Unknown tool 'magic_tool' called by LLM.")]
      [Event.execTool ("run_ollama_generate"), Event.execTool ("magic_tool")] rfl

/-- Witness for C10's universally quantified parts at concrete inputs. -/
theorem claim_C10_show_design_workflow_crashes_witness :
    (omniMain (fun _ => "plan text") ("2026-10-12T00:00:00") ("omni.py show_design_workflow")
        OmniCmd.showDesignWorkflow (OmniState.mk [] []) =
      Except.error (PyExn.nameError ("handle_show_design_workflow"))) ∧
    (OmniCmd.showTransactions ≠ OmniCmd.showDesignWorkflow ∧
      ∃ (st' : OmniState) (tx : Transaction),
        omniMain (fun _ => "plan text") ("2026-10-12T00:00:00") ("omni.py show_transactions")
          OmniCmd.showTransactions (OmniState.mk [] []) = Except.ok st' ∧
        st'.transactionsLog = ([] : List Transaction) ++ [tx]) := by
  constructor
  · exact claim_C10_show_design_workflow_crashes.2.1 (fun _ => "plan text")
      ("2026-10-12T00:00:00") ("omni.py show_design_workflow") (OmniState.mk [] [])
  · refine ⟨by decide, ?_⟩
    exact claim_C10_show_design_workflow_crashes.2.2 (fun _ => "plan text")
      ("2026-10-12T00:00:00") ("omni.py show_transactions") OmniCmd.showTransactions
      (OmniState.mk [] []) (by decide)

end SFA
